import Mathlib

/-!
The can2040 example program: receive queue and OpenLCB frame decoder.

A shallow embedding of `example/canexample.c`: the interrupt-safe receive
queue (`MessageQueue`, filled by `can2040_cb`, drained by the main loop) and
the identifier decoder that the main loop runs on every dequeued frame.

Machine integers are natural numbers; every place where the C code wraps or
narrows is written as an explicit `% 2 ^ w`.
-/

namespace Can2040

/-! ## Data model -/

/-- Capacity of the receive queue: `#define QUEUE_SIZE 128`. -/
def QUEUE_SIZE : Nat := 128

/-- Modulus of `uint32_t` arithmetic. -/
def UINT32_MOD : Nat := 2 ^ 32

/-- The fields of `struct can2040_msg` that the example reads: the identifier,
the data length code and the eight payload bytes. The declaration lives in
`can2040.h`; the example only copies the struct and reads these fields. -/
structure can2040_msg where
  id : Nat
  dlc : Nat
  data : Fin 8 → Nat

/-- The static `MessageQueue` object: two 32-bit counters and `QUEUE_SIZE`
message slots. -/
structure MessageQueue where
  pull_pos : Nat
  push_pos : Nat
  queue : Fin QUEUE_SIZE → can2040_msg

/-- The all-zero message of zero-initialised static storage. -/
def zero_msg : can2040_msg := ⟨0, 0, fun _ => 0⟩

/-- The queue at program start: static storage, both counters zero. -/
def MessageQueue.init : MessageQueue := ⟨0, 0, fun _ => zero_msg⟩

/-- Slot index `pos % QUEUE_SIZE` of a counter value. -/
def slot (pos : Nat) : Fin QUEUE_SIZE :=
  ⟨pos % QUEUE_SIZE, Nat.mod_lt pos (by decide)⟩

/-! ## Queue operations -/

/-- Body of `can2040_cb` for `notify == CAN2040_NOTIFY_RX` (lines 34-40):
the producer side of the queue. -/
def push (q : MessageQueue) (msg : can2040_msg) : MessageQueue :=
  let push_pos := q.push_pos
  let pull_pos := q.pull_pos
  if (push_pos + 1) % UINT32_MOD = pull_pos then
    -- No space in queue
    q
  else
    { pull_pos := q.pull_pos
      push_pos := (push_pos + 1) % UINT32_MOD
      queue := Function.update q.queue (slot push_pos) msg }

/-- The callback `can2040_cb`; the value of `CAN2040_NOTIFY_RX` comes from
`can2040.h` and is a parameter here. -/
def can2040_cb (CAN2040_NOTIFY_RX : Nat) (q : MessageQueue) (notify : Nat)
    (msg : can2040_msg) : MessageQueue :=
  if notify = CAN2040_NOTIFY_RX then push q msg else q

/-- Dequeue step of the main loop (lines 90-97): the consumer side. Returns the
message copied out of the queue, if any, and the queue afterwards. -/
def pop (q : MessageQueue) : Option can2040_msg × MessageQueue :=
  let push_pos := q.push_pos
  let pull_pos := q.pull_pos
  if push_pos ≠ pull_pos then
    let msg := q.queue (slot pull_pos)
    (some msg,
      { pull_pos := (q.pull_pos + 1) % UINT32_MOD
        push_pos := q.push_pos
        queue := q.queue })
  else
    (none, q)

/-- Number of elements held according to the counters: `push_pos - pull_pos`
in `uint32_t` arithmetic. -/
def held (q : MessageQueue) : Nat :=
  (q.push_pos + UINT32_MOD - q.pull_pos) % UINT32_MOD

/-- One queue operation of a trace. -/
inductive Op where
  | push (msg : can2040_msg)
  | pop

/-- Runs a trace of operations; returns the final queue and the messages the
successful pops returned, in order. -/
def run : List Op → MessageQueue → MessageQueue × List can2040_msg
  | [], q => (q, [])
  | Op.push m :: ops, q => run ops (push q m)
  | Op.pop :: ops, q =>
    match pop q with
    | (some m, q1) => ((run ops q1).1, m :: (run ops q1).2)
    | (none, q1) => run ops q1

/-- The messages a trace pushes, in order. -/
def pushed : List Op → List can2040_msg
  | [] => []
  | Op.push m :: ops => m :: pushed ops
  | Op.pop :: ops => pushed ops

/-- A message with the given identifier, no payload. -/
def frame (id : Nat) : can2040_msg := ⟨id, 0, fun _ => 0⟩

/-- The trace pushing `frame k, frame (k+1), ..., frame (k+n-1)`. -/
def pushes : Nat → Nat → List Op
  | _, 0 => []
  | k, n + 1 => Op.push (frame k) :: pushes (k + 1) n

/-- The trace of `n` pops. -/
def pops (n : Nat) : List Op := List.replicate n Op.pop

/-! ## Frame decoder -/

/-- One `printf` call of the decoder (lines 104-205), with the values passed
to its format string. Two calls that print the same text are the same
constructor. -/
inductive Report where
  /-- `Frame Type = OpenLCB Message` (line 107) -/
  | frame_type_openlcb
  /-- `Frame Format = %u and CAN MTI = 0x%04X` (line 111) -/
  | frame_format_and_mti (frameFormat canMTI : Nat)
  /-- `Frame Format = RESERVED.` (lines 114 and 178) -/
  | format_reserved
  /-- `Global & Addressed MTI Frame Format` (line 116) -/
  | format_global_addressed
  /-- `CAN MTI Gross message priority = %u` (line 128) -/
  | mti_gross_priority (v : Nat)
  /-- `CAN MTI Minor priority determination = %u` (line 129) -/
  | mti_minor_priority (v : Nat)
  /-- `CAN MTI 1=should be handled by simple nodes = %u` (line 130) -/
  | mti_simple_protocol (v : Nat)
  /-- `CAN MTI 1=has a destination address-field = %u` (line 131) -/
  | mti_address_present (v : Nat)
  /-- `CAN MTI 1=This message has an event-field = %u` (line 132) -/
  | mti_event_present (v : Nat)
  /-- `CAN MTI Message-specific extra information = %u` (line 133) -/
  | mti_message_modifier (v : Nat)
  /-- `Initialisation Complete message from 0x%03X, node 0x%012llX` (line 138) -/
  | initialisation_complete (sourceAddress nodeAddress : Nat)
  /-- `Undeciphered message.` (lines 141, 161 and 166) -/
  | undeciphered
  /-- `Consumer Identified - Valid message.` (line 148) -/
  | consumer_identified_valid
  /-- `Consumer Identified - Invalid message.` (line 151) -/
  | consumer_identified_invalid
  /-- `Consumer Identified - Unknown message.` (line 154) -/
  | consumer_identified_unknown
  /-- `Frame Format = Datagram complete in frame.` (line 170) -/
  | datagram_complete
  /-- `Frame Format = Datagram first frame.` (line 172) -/
  | datagram_first
  /-- `Frame Format = Datagram middle frame.` (line 174) -/
  | datagram_middle
  /-- `Frame Format = Datagram final frame.` (line 176) -/
  | datagram_final
  /-- `Frame Format = Stream Data.` (line 180) -/
  | stream_data
  /-- `Frame Type = CAN Control Frame` (line 184) -/
  | frame_type_control
  /-- `Content = 0x%04X` (line 187) -/
  | content (v : Nat)
  /-- `Reserve ID Frame.` (line 189) -/
  | reserve_id
  /-- `Alias Map Definition Frame.` (line 190) -/
  | alias_map_definition
  /-- `Alias Mapping Enquiry(AME) Frame.` (line 191) -/
  | alias_mapping_enquiry
  /-- `Alias Map Reset (AMR) Frame.` (line 192) -/
  | alias_map_reset
  /-- `Error Information Report 0.` (line 193) -/
  | error_report_0
  /-- `Error Information Report 1.` (line 194) -/
  | error_report_1
  /-- `Error Information Report 2.` (line 195) -/
  | error_report_2
  /-- `Error Information Report 3.` (line 196) -/
  | error_report_3
  /-- `Check ID Frame.` (line 197) -/
  | check_id
  /-- `Reserved Frame Type - should not have been sent!.` (line 198) -/
  | reserved_control
  /-- `Frame sequence number = %u` (line 202) -/
  | frame_sequence_number (v : Nat)
  /-- `Node ID being checked = 0x%03X` (line 203) -/
  | node_id_checked (v : Nat)
  /-- `Source NID Alias = 0x%03X` (line 204) -/
  | source_nid_alias (v : Nat)
  deriving DecidableEq, Repr

/-- Line 104-105: `openLcbFrame`, true when `msg.id & 0x8000000` is non-zero. -/
def openLcbFrame (id : Nat) : Bool := (id &&& 0x8000000) != 0

/-- Line 109: `(uint8_t)((msg.id & 0x07000000) >> 24)`. -/
def frameFormat (id : Nat) : Nat := ((id &&& 0x07000000) >>> 24) % 2 ^ 8

/-- Line 110: `(uint16_t)((msg.id & 0x00FFF000) >> 12)`. -/
def canMTI (id : Nat) : Nat := ((id &&& 0x00FFF000) >>> 12) % 2 ^ 16

/-- Line 117: `uint8_t grossPriority = (msg.id & 0x00C00000) >> 22`. -/
def grossPriority (id : Nat) : Nat := ((id &&& 0x00C00000) >>> 22) % 2 ^ 8

/-- Line 118: `uint8_t typeWithinPriority = (msg.id & 0x003E0000) >> 17`. -/
def typeWithinPriority (id : Nat) : Nat := ((id &&& 0x003E0000) >>> 17) % 2 ^ 8

/-- Line 119: `uint8_t simpleProtocol = (msg.id & 0x00010000) >> 16`. -/
def simpleProtocol (id : Nat) : Nat := ((id &&& 0x00010000) >>> 16) % 2 ^ 8

/-- Line 120: `uint8_t addressPresent = (msg.id & 0x00008000) >> 15`. -/
def addressPresent (id : Nat) : Nat := ((id &&& 0x00008000) >>> 15) % 2 ^ 8

/-- Line 121: `uint8_t eventPresent = (msg.id & 0x00004000) >> 14`. -/
def eventPresent (id : Nat) : Nat := ((id &&& 0x00004000) >>> 14) % 2 ^ 8

/-- Line 122: `uint8_t messageModifier = (msg.id & 0x00003000) >> 12`. -/
def messageModifier (id : Nat) : Nat := ((id &&& 0x00003000) >>> 12) % 2 ^ 8

/-- Line 123: `uint16_t sourceAddress = msg.id & 0x00000FFF`. -/
def sourceAddress (id : Nat) : Nat := (id &&& 0x00000FFF) % 2 ^ 16

/-- Lines 124-126: `nodeAddress`, the first six payload bytes widened to
`uint64_t`, shifted and or-ed together. -/
def nodeAddress (msg : can2040_msg) : Nat :=
  (((msg.data 0 % 2 ^ 64) <<< 40) % 2 ^ 64) ||| (((msg.data 1 % 2 ^ 64) <<< 32) % 2 ^ 64) |||
  (((msg.data 2 % 2 ^ 64) <<< 24) % 2 ^ 64) ||| (((msg.data 3 % 2 ^ 64) <<< 16) % 2 ^ 64) |||
  (((msg.data 4 % 2 ^ 64) <<< 8) % 2 ^ 64) ||| (msg.data 5 % 2 ^ 64)

/-- Lines 135-168: the nested `switch` on `grossPriority`,
`typeWithinPriority` and `messageModifier`. -/
def classify_mti (msg : can2040_msg) : List Report :=
  match grossPriority msg.id with
  | 0x00 =>
    match typeWithinPriority msg.id with
    | 0x08 => [Report.initialisation_complete (sourceAddress msg.id) (nodeAddress msg)]
    | _ => [Report.undeciphered]
  | 0x01 =>
    match typeWithinPriority msg.id with
    | 0x06 =>
      match messageModifier msg.id with
      | 0 => [Report.consumer_identified_valid]
      | 1 => [Report.consumer_identified_invalid]
      | 3 => [Report.consumer_identified_unknown]
      | _ => []
    | _ => [Report.undeciphered]
  | _ => [Report.undeciphered]

/-- Lines 107-181: the OpenLCB branch. -/
def classify_openlcb (msg : can2040_msg) : List Report :=
  [Report.frame_type_openlcb, Report.frame_format_and_mti (frameFormat msg.id) (canMTI msg.id)] ++
  (if frameFormat msg.id = 0 then [Report.format_reserved]
   else if frameFormat msg.id = 1 then
     [Report.format_global_addressed,
      Report.mti_gross_priority (grossPriority msg.id),
      Report.mti_minor_priority (typeWithinPriority msg.id),
      Report.mti_simple_protocol (simpleProtocol msg.id),
      Report.mti_address_present (addressPresent msg.id),
      Report.mti_event_present (eventPresent msg.id),
      Report.mti_message_modifier (messageModifier msg.id)] ++ classify_mti msg
   else if frameFormat msg.id = 2 then [Report.datagram_complete]
   else if frameFormat msg.id = 3 then [Report.datagram_first]
   else if frameFormat msg.id = 4 then [Report.datagram_middle]
   else if frameFormat msg.id = 5 then [Report.datagram_final]
   else if frameFormat msg.id = 6 then [Report.format_reserved]
   else if frameFormat msg.id = 7 then [Report.stream_data]
   else [])

/-- Line 186: `uint32_t content = (msg.id & 0x07FFF000) >> 12`. -/
def content (id : Nat) : Nat := (id &&& 0x07FFF000) >>> 12

/-- Lines 189-198: the `if` chain on `content`. -/
def classify_content (content : Nat) : Report :=
  if content = 0x0700 then Report.reserve_id
  else if content = 0x0701 then Report.alias_map_definition
  else if content = 0x0702 then Report.alias_mapping_enquiry
  else if content = 0x0703 then Report.alias_map_reset
  else if content = 0x0710 then Report.error_report_0
  else if content = 0x0711 then Report.error_report_1
  else if content = 0x0712 then Report.error_report_2
  else if content = 0x0713 then Report.error_report_3
  else if content > 0x1000 then Report.check_id
  else Report.reserved_control

/-- Line 200: `uint32_t frameSeqNum = content >> 12`. -/
def frameSeqNum (content : Nat) : Nat := content >>> 12

/-- Line 201: `uint32_t sourceNidAlias = (msg.id & 0x00000FFF)`. -/
def sourceNidAlias (id : Nat) : Nat := id &&& 0x00000FFF

/-- Lines 184-204: the CAN control frame branch. -/
def classify_control (msg : can2040_msg) : List Report :=
  [Report.frame_type_control, Report.content (content msg.id),
   classify_content (content msg.id),
   Report.frame_sequence_number (frameSeqNum (content msg.id)),
   Report.node_id_checked (content msg.id &&& 0xFFF),
   Report.source_nid_alias (sourceNidAlias msg.id)]

/-- Lines 104-205: the decoder the main loop runs on a dequeued message; the
result is the sequence of its `printf` calls. -/
def classify (msg : can2040_msg) : List Report :=
  if openLcbFrame msg.id then classify_openlcb msg else classify_control msg

/-- The ten labels the `if` chain on `content` can print (lines 189-198). -/
def Report.is_control_label : Report → Bool
  | Report.reserve_id => true
  | Report.alias_map_definition => true
  | Report.alias_mapping_enquiry => true
  | Report.alias_map_reset => true
  | Report.error_report_0 => true
  | Report.error_report_1 => true
  | Report.error_report_2 => true
  | Report.error_report_3 => true
  | Report.check_id => true
  | Report.reserved_control => true
  | _ => false

/-- The format lines the `if` chain on `frameFormat` can print (lines 113-181). -/
def Report.is_format_label : Report → Bool
  | Report.format_reserved => true
  | Report.format_global_addressed => true
  | Report.datagram_complete => true
  | Report.datagram_first => true
  | Report.datagram_middle => true
  | Report.datagram_final => true
  | Report.stream_data => true
  | _ => false

/-- The message classifications the nested `switch` can print (lines 135-168). -/
def Report.is_message_label : Report → Bool
  | Report.initialisation_complete _ _ => true
  | Report.undeciphered => true
  | Report.consumer_identified_valid => true
  | Report.consumer_identified_invalid => true
  | Report.consumer_identified_unknown => true
  | _ => false

/-- A report line with the payload-derived `nodeAddress` argument blanked;
every other line is kept as it is. -/
def Report.forget_node : Report → Report
  | Report.initialisation_complete sourceAddress _ =>
    Report.initialisation_complete sourceAddress 0
  | r => r

/-- Producer step 3 (line 39): store the frame in `queue[push_pos % QUEUE_SIZE]`;
the counters are not touched. -/
def push_write_slot (q : MessageQueue) (push_pos : Nat) (msg : can2040_msg) : MessageQueue :=
  { pull_pos := q.pull_pos
    push_pos := q.push_pos
    queue := Function.update q.queue (slot push_pos) msg }

/-- Producer step 4 (line 40): publish `push_pos + 1`. -/
def push_publish (q : MessageQueue) (push_pos : Nat) : MessageQueue :=
  { pull_pos := q.pull_pos
    push_pos := (push_pos + 1) % UINT32_MOD
    queue := q.queue }

/-- The receive callback as the sequence of its four steps (lines 34-40): read
`push_pos`, read `pull_pos`, write the slot, publish. -/
def push_steps (q : MessageQueue) (msg : can2040_msg) : MessageQueue :=
  let push_pos := q.push_pos
  let pull_pos := q.pull_pos
  if (push_pos + 1) % UINT32_MOD = pull_pos then q
  else push_publish (push_write_slot q push_pos msg) push_pos

/-- Receive interrupts: the callback runs to completion once per received
frame, in order. -/
def irq (q : MessageQueue) (msgs : List can2040_msg) : MessageQueue :=
  msgs.foldl push_steps q

/-- The dequeue step of the main loop (lines 90-97) as its four steps, with
receive interrupts `irq1`, `irq2`, `irq3` served between consecutive steps:
read `push_pos` (line 90), read `pull_pos` (line 91), copy the slot (lines
95-96), advance `pull_pos` (line 97). -/
def pop_preempted (q : MessageQueue) (irq1 irq2 irq3 : List can2040_msg) :
    Option can2040_msg × MessageQueue :=
  let push_pos := q.push_pos
  let q1 := irq q irq1
  let pull_pos := q1.pull_pos
  let q2 := irq q1 irq2
  if push_pos ≠ pull_pos then
    let msg := q2.queue (slot pull_pos)
    let q3 := irq q2 irq3
    (some msg,
      { pull_pos := (q3.pull_pos + 1) % UINT32_MOD
        push_pos := q3.push_pos
        queue := q3.queue })
  else
    (none, q2)

/-- Abstract occupancy check of a trace: starting with `n` frames held, a push
adds one frame, a pop removes one if there is any, and the number of frames held
never exceeds the `QUEUE_SIZE` slots of the buffer. -/
def fits : Nat → List Op → Bool
  | _, [] => true
  | n, Op.push _ :: ops => decide (n + 1 ≤ QUEUE_SIZE) && fits (n + 1) ops
  | n, Op.pop :: ops => fits (n - 1) ops

/-- Refinement relation: the circular buffer `q` represents the list `l` of
pending frames, oldest first. -/
structure Represents (q : MessageQueue) (l : List can2040_msg) : Prop where
  pull_lt : q.pull_pos < 2 ^ 32
  push_eq : q.push_pos = (q.pull_pos + l.length) % 2 ^ 32
  len_le : l.length ≤ 128
  slots : ∀ i (h : i < l.length), q.queue (slot (q.pull_pos + i)) = l[i]

/-! ## Queue: helper lemmas -/

theorem slot_eq_iff (a b : Nat) : slot a = slot b ↔ a % 128 = b % 128 := by
  simp [slot, QUEUE_SIZE, Fin.ext_iff]

theorem represents_init : Represents MessageQueue.init [] := by
  refine ⟨by decide, by decide, by decide, ?_⟩
  intro i h
  simp at h

theorem represents_push {q : MessageQueue} {l : List can2040_msg} (m : can2040_msg)
    (hr : Represents q l) (hl : l.length < 128) : Represents (push q m) (l ++ [m]) := by
  obtain ⟨h1, h2, h3, h4⟩ := hr
  have hne : ¬ (q.push_pos + 1) % 2 ^ 32 = q.pull_pos := by omega
  simp only [push, UINT32_MOD, if_neg hne]
  refine ⟨h1, ?_, ?_, ?_⟩
  · simp only [List.length_append, List.length_singleton]; omega
  · simp only [List.length_append, List.length_singleton]; omega
  · intro i hi
    simp only [List.length_append, List.length_singleton] at hi
    dsimp only
    by_cases hlt : i < l.length
    · have hs : slot (q.pull_pos + i) ≠ slot q.push_pos := by
        rw [Ne, slot_eq_iff]; omega
      rw [Function.update_noteq hs, List.getElem_append_left hlt]
      exact h4 i hlt
    · have hi2 : i = l.length := by omega
      subst hi2
      have hs : slot (q.pull_pos + l.length) = slot q.push_pos := by
        rw [slot_eq_iff]; omega
      rw [hs, Function.update_same]
      simp

theorem represents_pop_cons {q : MessageQueue} {m : can2040_msg} {l : List can2040_msg}
    (hr : Represents q (m :: l)) : (pop q).1 = some m ∧ Represents (pop q).2 l := by
  obtain ⟨h1, h2, h3, h4⟩ := hr
  simp only [List.length_cons] at h2 h3
  have hne : q.push_pos ≠ q.pull_pos := by omega
  simp only [pop, UINT32_MOD, if_pos hne]
  refine ⟨?_, ?_, ?_, ?_, ?_⟩
  · have := h4 0 (by simp)
    simpa using this
  · exact Nat.mod_lt _ (by decide)
  · dsimp only
    omega
  · omega
  · intro i hi
    have := h4 (i + 1) (by simp; omega)
    simp only [List.getElem_cons_succ] at this
    dsimp only
    rw [← this]
    congr 1
    rw [slot_eq_iff]; omega

theorem represents_pop_nil {q : MessageQueue} (hr : Represents q []) : pop q = (none, q) := by
  obtain ⟨h1, h2, h3, h4⟩ := hr
  simp only [List.length_nil, Nat.add_zero] at h2
  have he : q.push_pos = q.pull_pos := by omega
  simp [pop, he]

theorem held_of_represents {q : MessageQueue} {l : List can2040_msg}
    (hr : Represents q l) : held q = l.length := by
  obtain ⟨h1, h2, h3, _⟩ := hr
  unfold held UINT32_MOD
  omega

/-- Simulation: along a trace that fits the buffer, popped frames followed by
the frames still pending are the initially pending frames followed by the
pushed ones. -/
theorem run_represents (ops : List Op) : ∀ (q : MessageQueue) (l : List can2040_msg),
    Represents q l → fits l.length ops = true →
    ∃ l1, Represents (run ops q).1 l1 ∧ (run ops q).2 ++ l1 = l ++ pushed ops := by
  induction ops with
  | nil => intro q l hr _; exact ⟨l, hr, by simp [run, pushed]⟩
  | cons op ops ih =>
    intro q l hr hf
    cases op with
    | push m =>
      simp only [fits, Bool.and_eq_true, decide_eq_true_eq, QUEUE_SIZE] at hf
      obtain ⟨l1, hr1, he⟩ := ih (push q m) (l ++ [m]) (represents_push m hr (by omega))
        (by simpa using hf.2)
      exact ⟨l1, hr1, by simpa [run, pushed] using he⟩
    | pop =>
      simp only [fits] at hf
      cases l with
      | nil =>
        have hp := represents_pop_nil hr
        obtain ⟨l1, hr1, he⟩ := ih q [] hr (by simpa using hf)
        refine ⟨l1, ?_, ?_⟩
        · simpa [run, hp] using hr1
        · simpa [run, hp, pushed] using he
      | cons m l =>
        obtain ⟨hp1, hp2⟩ := represents_pop_cons hr
        obtain ⟨l1, hr1, he⟩ := ih (pop q).2 l hp2 (by simpa using hf)
        have hpq : pop q = (some m, (pop q).2) := by rw [← hp1]
        refine ⟨l1, ?_, ?_⟩
        · rw [run, hpq]; exact hr1
        · rw [run, hpq]; simp [pushed, he]

/-! ## Queue: the claims -/

set_option maxRecDepth 100000 in
/-- C1 (evaluation at the failing input): after 128 pushes from the empty
queue every push has been accepted, the counters differ by 128 and the number
of elements held exceeds `QUEUE_SIZE - 1 = 127`. -/
theorem capacity_exceeded_after_128_pushes :
    (run (pushes 0 128) MessageQueue.init).1.push_pos = 128 ∧
    (run (pushes 0 128) MessageQueue.init).1.pull_pos = 0 ∧
    held (run (pushes 0 128) MessageQueue.init).1 = 128 ∧
    ¬ held (run (pushes 0 128) MessageQueue.init).1 ≤ QUEUE_SIZE - 1 := by
  decide

set_option maxRecDepth 100000 in
/-- C2 (evaluation at the failing input): after pushing `frame 0 .. frame 127`
and then `frame 999` onto the empty queue, the counters report 129 frames, the
extra push was not rejected (it advanced `push_pos` and overwrote slot 0), and
draining returns `frame 999` first, then frames 1..127, then `frame 999`
again; `frame 0` is lost. -/
theorem overflow_push_overwrites_oldest :
    held (run (pushes 0 128 ++ [Op.push (frame 999)]) MessageQueue.init).1 = 129 ∧
    (run (pushes 0 128 ++ [Op.push (frame 999)]) MessageQueue.init).1.push_pos = 129 ∧
    (pop (run (pushes 0 128 ++ [Op.push (frame 999)]) MessageQueue.init).1).1
      = some (frame 999) ∧
    (run (pushes 0 128 ++ [Op.push (frame 999)] ++ pops 129) MessageQueue.init).2.map
      (fun m => m.id) = 999 :: (List.range' 1 127 ++ [999]) ∧
    (run (pushes 0 128 ++ [Op.push (frame 999)] ++ pops 130) MessageQueue.init).2.length
      = 129 := by
  refine ⟨by decide, by decide, rfl, by decide, by decide⟩

/-- C3: FIFO order. Along every trace of pushes and pops from the empty queue
in which the number of frames held never exceeds the 128 slots, the frames
returned by the successful pops are a prefix of the frames pushed: the k-th
successful pop returns the k-th pushed frame, whole struct. The counters then
report exactly the frames pushed and not yet popped. -/
theorem fifo_order (ops : List Op) (h : fits 0 ops = true) :
    (run ops MessageQueue.init).2 <+: pushed ops ∧
    (∀ k (hk : k < (run ops MessageQueue.init).2.length),
      (pushed ops)[k]? = some ((run ops MessageQueue.init).2[k])) ∧
    held (run ops MessageQueue.init).1 =
      (pushed ops).length - (run ops MessageQueue.init).2.length := by
  obtain ⟨l1, hr, he⟩ := run_represents ops MessageQueue.init [] represents_init h
  simp only [List.nil_append] at he
  refine ⟨⟨l1, he⟩, ?_, ?_⟩
  · intro k hk
    rw [← he, List.getElem?_append_left hk, List.getElem?_eq_getElem hk]
  · rw [held_of_represents hr, ← he, List.length_append]
    omega

set_option maxRecDepth 100000 in
/-- Witness for C3: a trace that fills all 128 slots, drains 100, refills and
drains everything, wrapping around the buffer. -/
theorem fifo_order_witness :
    fits 0 (pushes 0 128 ++ pops 100 ++ pushes 128 100 ++ pops 128) = true ∧
    ((run (pushes 0 128 ++ pops 100 ++ pushes 128 100 ++ pops 128) MessageQueue.init).2
        <+: pushed (pushes 0 128 ++ pops 100 ++ pushes 128 100 ++ pops 128) ∧
      (∀ k (hk : k < (run (pushes 0 128 ++ pops 100 ++ pushes 128 100 ++ pops 128)
          MessageQueue.init).2.length),
        (pushed (pushes 0 128 ++ pops 100 ++ pushes 128 100 ++ pops 128))[k]? =
          some ((run (pushes 0 128 ++ pops 100 ++ pushes 128 100 ++ pops 128)
            MessageQueue.init).2[k])) ∧
      held (run (pushes 0 128 ++ pops 100 ++ pushes 128 100 ++ pops 128)
          MessageQueue.init).1 =
        (pushed (pushes 0 128 ++ pops 100 ++ pushes 128 100 ++ pops 128)).length -
          (run (pushes 0 128 ++ pops 100 ++ pushes 128 100 ++ pops 128)
            MessageQueue.init).2.length) :=
  ⟨by decide, fifo_order _ (by decide)⟩

/-- C4: underflow. In every state whose counters are equal, `pop` returns
nothing and leaves `push_pos`, `pull_pos` and every slot unchanged. -/
theorem pop_empty (q : MessageQueue) (h : q.push_pos = q.pull_pos) :
    (pop q).1 = none ∧ (pop q).2.push_pos = q.push_pos ∧
    (pop q).2.pull_pos = q.pull_pos ∧ (∀ i, (pop q).2.queue i = q.queue i) ∧
    (pop q).2 = q := by
  simp [pop, h]

/-- Witness for C4: the freshly constructed queue. -/
theorem pop_empty_witness :
    MessageQueue.init.push_pos = MessageQueue.init.pull_pos ∧
    ((pop MessageQueue.init).1 = none ∧
      (pop MessageQueue.init).2.push_pos = MessageQueue.init.push_pos ∧
      (pop MessageQueue.init).2.pull_pos = MessageQueue.init.pull_pos ∧
      (∀ i, (pop MessageQueue.init).2.queue i = MessageQueue.init.queue i) ∧
      (pop MessageQueue.init).2 = MessageQueue.init) :=
  ⟨rfl, pop_empty MessageQueue.init rfl⟩

/-- C5: ownership of the counters. `push` never changes `pull_pos` and changes
no slot other than `queue[push_pos % 128]`; a rejected push changes nothing, an
accepted push stores the frame in that slot and increments `push_pos` (as a
`uint32_t`). `pop` never changes `push_pos` or any slot; on a non-empty queue
it returns `queue[pull_pos % 128]` and increments `pull_pos` (as a
`uint32_t`). -/
theorem counter_ownership (q : MessageQueue) (msg : can2040_msg) :
    (push q msg).pull_pos = q.pull_pos ∧
    (∀ i, i ≠ slot q.push_pos → (push q msg).queue i = q.queue i) ∧
    ((q.push_pos + 1) % 2 ^ 32 = q.pull_pos → push q msg = q) ∧
    ((q.push_pos + 1) % 2 ^ 32 ≠ q.pull_pos →
      (push q msg).queue (slot q.push_pos) = msg ∧
      (push q msg).push_pos = (q.push_pos + 1) % 2 ^ 32 ∧
      (q.push_pos + 1 < 2 ^ 32 → (push q msg).push_pos = q.push_pos + 1)) ∧
    (pop q).2.push_pos = q.push_pos ∧
    (∀ i, (pop q).2.queue i = q.queue i) ∧
    (q.push_pos ≠ q.pull_pos →
      (pop q).1 = some (q.queue (slot q.pull_pos)) ∧
      (pop q).2.pull_pos = (q.pull_pos + 1) % 2 ^ 32 ∧
      (q.pull_pos + 1 < 2 ^ 32 → (pop q).2.pull_pos = q.pull_pos + 1)) := by
  refine ⟨?_, ?_, ?_, ?_, ?_, ?_, ?_⟩
  · unfold push; dsimp only; split <;> rfl
  · intro i hi
    unfold push; dsimp only
    split
    · rfl
    · exact Function.update_noteq hi _ _
  · intro h
    simp only [push, UINT32_MOD, if_pos h]
  · intro h
    simp only [push, UINT32_MOD, if_neg h, Function.update_same, true_and]
    intro h2
    exact Nat.mod_eq_of_lt h2
  · unfold pop; dsimp only; split <;> rfl
  · intro i
    unfold pop; dsimp only; split <;> rfl
  · intro h
    simp only [pop, UINT32_MOD, if_pos h, true_and]
    intro h2
    exact Nat.mod_eq_of_lt h2

/-! ## Decoder: bit-field lemmas -/

/-- Masking with `b` ones starting at bit `a` keeps the field `x / 2^a % 2^b`
in place. -/
theorem and_field_mask (x a b : Nat) :
    x &&& ((2 ^ b - 1) <<< a) = (x / 2 ^ a % 2 ^ b) * 2 ^ a := by
  apply Nat.eq_of_testBit_eq
  intro i
  rw [← Nat.shiftLeft_eq, ← Nat.shiftRight_eq_div_pow]
  simp only [Nat.testBit_and, Nat.testBit_shiftLeft, Nat.testBit_two_pow_sub_one,
    Nat.testBit_mod_two_pow, Nat.testBit_shiftRight]
  by_cases h : a ≤ i
  · have : a + (i - a) = i := by omega
    simp [h, this, Bool.and_comm]
  · simp [h]

/-- Masking a field and shifting it down extracts `x / 2^a % 2^b`. -/
theorem and_field_mask_shiftRight (x a b : Nat) :
    (x &&& ((2 ^ b - 1) <<< a)) >>> a = x / 2 ^ a % 2 ^ b := by
  rw [and_field_mask, Nat.shiftRight_eq_div_pow]
  exact Nat.mul_div_cancel _ (Nat.two_pow_pos a)

theorem and_fff (x : Nat) : x &&& 0xFFF = x % 2 ^ 12 :=
  Nat.and_pow_two_sub_one_eq_mod x 12

theorem frameFormat_raw (id : Nat) : (id &&& 0x07000000) >>> 24 = id / 2 ^ 24 % 2 ^ 3 :=
  and_field_mask_shiftRight id 24 3

theorem canMTI_raw (id : Nat) : (id &&& 0x00FFF000) >>> 12 = id / 2 ^ 12 % 2 ^ 12 :=
  and_field_mask_shiftRight id 12 12

theorem grossPriority_raw (id : Nat) : (id &&& 0x00C00000) >>> 22 = id / 2 ^ 22 % 2 ^ 2 :=
  and_field_mask_shiftRight id 22 2

theorem typeWithinPriority_raw (id : Nat) :
    (id &&& 0x003E0000) >>> 17 = id / 2 ^ 17 % 2 ^ 5 :=
  and_field_mask_shiftRight id 17 5

theorem simpleProtocol_raw (id : Nat) : (id &&& 0x00010000) >>> 16 = id / 2 ^ 16 % 2 ^ 1 :=
  and_field_mask_shiftRight id 16 1

theorem addressPresent_raw (id : Nat) : (id &&& 0x00008000) >>> 15 = id / 2 ^ 15 % 2 ^ 1 :=
  and_field_mask_shiftRight id 15 1

theorem eventPresent_raw (id : Nat) : (id &&& 0x00004000) >>> 14 = id / 2 ^ 14 % 2 ^ 1 :=
  and_field_mask_shiftRight id 14 1

theorem messageModifier_raw (id : Nat) : (id &&& 0x00003000) >>> 12 = id / 2 ^ 12 % 2 ^ 2 :=
  and_field_mask_shiftRight id 12 2

theorem content_raw (id : Nat) : (id &&& 0x07FFF000) >>> 12 = id / 2 ^ 12 % 2 ^ 15 :=
  and_field_mask_shiftRight id 12 15

theorem frameFormat_eq (id : Nat) : frameFormat id = (id &&& 0x07000000) >>> 24 := by
  unfold frameFormat; rw [frameFormat_raw]; omega

theorem canMTI_eq (id : Nat) : canMTI id = (id &&& 0x00FFF000) >>> 12 := by
  unfold canMTI; rw [canMTI_raw]; omega

theorem grossPriority_eq (id : Nat) : grossPriority id = (id &&& 0x00C00000) >>> 22 := by
  unfold grossPriority; rw [grossPriority_raw]; omega

theorem typeWithinPriority_eq (id : Nat) :
    typeWithinPriority id = (id &&& 0x003E0000) >>> 17 := by
  unfold typeWithinPriority; rw [typeWithinPriority_raw]; omega

theorem simpleProtocol_eq (id : Nat) : simpleProtocol id = (id &&& 0x00010000) >>> 16 := by
  unfold simpleProtocol; rw [simpleProtocol_raw]; omega

theorem addressPresent_eq (id : Nat) : addressPresent id = (id &&& 0x00008000) >>> 15 := by
  unfold addressPresent; rw [addressPresent_raw]; omega

theorem eventPresent_eq (id : Nat) : eventPresent id = (id &&& 0x00004000) >>> 14 := by
  unfold eventPresent; rw [eventPresent_raw]; omega

theorem messageModifier_eq (id : Nat) : messageModifier id = (id &&& 0x00003000) >>> 12 := by
  unfold messageModifier; rw [messageModifier_raw]; omega

theorem sourceAddress_eq (id : Nat) : sourceAddress id = id &&& 0x00000FFF := by
  unfold sourceAddress; rw [and_fff]; omega

theorem openLcbFrame_eq (id : Nat) : openLcbFrame id = decide (id / 2 ^ 27 % 2 = 1) := by
  unfold openLcbFrame
  rw [show (0x8000000 : Nat) = (2 ^ 1 - 1) <<< 27 from by decide, and_field_mask]
  generalize id / 2 ^ 27 = k
  rcases Nat.mod_two_eq_zero_or_one k with h | h <;> simp [h]

theorem openLcbFrame_true {id : Nat} (h : id &&& 0x08000000 ≠ 0) : openLcbFrame id = true := by
  simpa [openLcbFrame] using h

theorem openLcbFrame_false {id : Nat} (h : id &&& 0x08000000 = 0) : openLcbFrame id = false := by
  simp [openLcbFrame, h]

theorem bit27_iff_testBit (id : Nat) : id &&& 0x08000000 ≠ 0 ↔ id.testBit 27 = true := by
  have h := openLcbFrame_eq id
  rw [Nat.testBit_to_div_mod]
  unfold openLcbFrame at h
  constructor
  · intro hne
    rw [← h]; simpa using hne
  · intro ht
    rw [← h] at ht; simpa using ht

theorem encode_control_id {c a : Nat} (ha : a < 2 ^ 12) :
    (c <<< 12) ||| a = 2 ^ 12 * c + a := by
  rw [Nat.shiftLeft_eq, Nat.mul_comm, ← Nat.mul_add_lt_is_or ha]

theorem bit27_clear_of_lt {id : Nat} (h : id < 2 ^ 27) : id &&& 0x08000000 = 0 := by
  rw [show (0x08000000 : Nat) = (2 ^ 1 - 1) <<< 27 from by decide, and_field_mask,
    Nat.div_eq_of_lt h]
  rfl

theorem widen_shift {d k : Nat} (hd : d < 256) (hk : k ≤ 40) :
    ((d % 2 ^ 64) <<< k) % 2 ^ 64 = d <<< k := by
  have h1 : d % 2 ^ 64 = d := Nat.mod_eq_of_lt (by omega)
  have h2 : d * 2 ^ k ≤ d * 2 ^ 40 :=
    Nat.mul_le_mul_left d (Nat.pow_le_pow_right (by decide) hk)
  rw [h1, Nat.shiftLeft_eq]
  exact Nat.mod_eq_of_lt (by omega)

/-- With payload bytes in `uint8_t` range the widening casts and the 64-bit
shifts of `nodeAddress` lose nothing. -/
theorem nodeAddress_of_bytes (msg : can2040_msg) (h : ∀ i, msg.data i < 256) :
    nodeAddress msg =
      (msg.data 0 <<< 40) ||| (msg.data 1 <<< 32) ||| (msg.data 2 <<< 24) |||
        (msg.data 3 <<< 16) ||| (msg.data 4 <<< 8) ||| msg.data 5 := by
  unfold nodeAddress
  rw [widen_shift (h 0) (by decide), widen_shift (h 1) (by decide),
    widen_shift (h 2) (by decide), widen_shift (h 3) (by decide),
    widen_shift (h 4) (by decide), Nat.mod_eq_of_lt (show msg.data 5 < 2 ^ 64 from by
      have := h 5; omega)]

theorem classify_content_is_label (c : Nat) :
    (classify_content c).is_control_label = true := by
  unfold classify_content
  repeat' split
  all_goals rfl

/-! ## Decoder: the claims -/

/-- C6: frame family and format dispatch. The decoder reports an OpenLCB
message exactly when bit 27 of the identifier is set and a CAN control frame
otherwise. For an OpenLCB frame it reports `(id & 0x07000000) >> 24` as frame
format, which is at most 7, and the format line is: 0 reserved, 1 Global &
Addressed MTI, 2/3/4/5 Datagram complete/first/middle/final, 6 reserved,
7 Stream Data; for every format other than 1 nothing else is reported. -/
theorem frame_family_and_format (msg : can2040_msg) :
    (msg.id &&& 0x08000000 ≠ 0 ↔ msg.id.testBit 27 = true) ∧
    (Report.frame_type_openlcb ∈ classify msg ↔ msg.id &&& 0x08000000 ≠ 0) ∧
    (Report.frame_type_control ∈ classify msg ↔ msg.id &&& 0x08000000 = 0) ∧
    (msg.id &&& 0x08000000 ≠ 0 →
      (msg.id &&& 0x07000000) >>> 24 ≤ 7 ∧
      (classify msg).take 2 = [Report.frame_type_openlcb,
        Report.frame_format_and_mti ((msg.id &&& 0x07000000) >>> 24)
          ((msg.id &&& 0x00FFF000) >>> 12)] ∧
      ((msg.id &&& 0x07000000) >>> 24 = 0 → (classify msg).drop 2 = [Report.format_reserved]) ∧
      ((msg.id &&& 0x07000000) >>> 24 = 1 →
        ((classify msg).drop 2).take 1 = [Report.format_global_addressed]) ∧
      ((msg.id &&& 0x07000000) >>> 24 = 2 →
        (classify msg).drop 2 = [Report.datagram_complete]) ∧
      ((msg.id &&& 0x07000000) >>> 24 = 3 → (classify msg).drop 2 = [Report.datagram_first]) ∧
      ((msg.id &&& 0x07000000) >>> 24 = 4 →
        (classify msg).drop 2 = [Report.datagram_middle]) ∧
      ((msg.id &&& 0x07000000) >>> 24 = 5 → (classify msg).drop 2 = [Report.datagram_final]) ∧
      ((msg.id &&& 0x07000000) >>> 24 = 6 → (classify msg).drop 2 = [Report.format_reserved]) ∧
      ((msg.id &&& 0x07000000) >>> 24 = 7 → (classify msg).drop 2 = [Report.stream_data])) := by
  refine ⟨bit27_iff_testBit msg.id, ?_, ?_, ?_⟩
  · by_cases h : msg.id &&& 0x08000000 = 0
    · simp [classify, openLcbFrame_false h, classify_control, h, classify_content]
      repeat' split
      all_goals simp
    · simp [classify, openLcbFrame_true h, classify_openlcb, h]
  · by_cases h : msg.id &&& 0x08000000 = 0
    · simp [classify, openLcbFrame_false h, classify_control, h]
    · simp only [classify, openLcbFrame_true h, classify_openlcb, if_true]
      simp only [h, iff_false]
      repeat' split
      all_goals simp [classify_mti]
      all_goals repeat' split
      all_goals simp
  · intro h
    have hff := frameFormat_eq msg.id
    have hmti := canMTI_eq msg.id
    have hle : (msg.id &&& 0x07000000) >>> 24 ≤ 7 := by
      rw [frameFormat_raw]; omega
    simp only [classify, openLcbFrame_true h, classify_openlcb, if_true, hff, hmti]
    refine ⟨hle, rfl, ?_, ?_, ?_, ?_, ?_, ?_, ?_, ?_⟩ <;> intro h1 <;> simp [h1]

/-- Witness vectors for C6: id `0x08000802` with payload `[0,0,0,0,0,5]` is an
OpenLCB frame of format 0, reported reserved. -/
theorem frame_family_and_format_witness :
    (0x08000802 &&& 0x08000000 ≠ 0) ∧ (0x08000802 &&& 0x07000000) >>> 24 = 0 ∧
    Report.frame_type_openlcb ∈ classify ⟨0x08000802, 6, ![0, 0, 0, 0, 0, 5, 0, 0]⟩ ∧
    (classify ⟨0x08000802, 6, ![0, 0, 0, 0, 0, 5, 0, 0]⟩).drop 2 = [Report.format_reserved] :=
  ⟨by decide, by decide,
    (frame_family_and_format ⟨0x08000802, 6, ![0, 0, 0, 0, 0, 5, 0, 0]⟩).2.1.2 (by decide),
    ((frame_family_and_format ⟨0x08000802, 6, ![0, 0, 0, 0, 0, 5, 0, 0]⟩).2.2.2
      (by decide)).2.2.1 (by decide)⟩

/-- C7: control-frame classification. For an identifier with bit 27 clear and
`content = (id & 0x07FFF000) >> 12`, the decoder reports the control frame
type, the content, exactly one label, the frame sequence number
`content >> 12`, `content & 0xFFF` and the source alias `id & 0xFFF`; the label
is Reserve ID for 0x0700, Alias Map Definition for 0x0701, Alias Mapping
Enquiry for 0x0702, Alias Map Reset for 0x0703, Error Information Report 0..3
for 0x0710..0x0713, Check ID for every content above 0x1000, and reserved for
every other content. -/
theorem control_frame_classification (msg : can2040_msg)
    (h : msg.id &&& 0x08000000 = 0) :
    ∃ label,
      classify msg =
        [Report.frame_type_control, Report.content ((msg.id &&& 0x07FFF000) >>> 12), label,
          Report.frame_sequence_number (((msg.id &&& 0x07FFF000) >>> 12) >>> 12),
          Report.node_id_checked (((msg.id &&& 0x07FFF000) >>> 12) &&& 0xFFF),
          Report.source_nid_alias (msg.id &&& 0xFFF)] ∧
      (classify msg).filter Report.is_control_label = [label] ∧
      ((msg.id &&& 0x07FFF000) >>> 12 = 0x0700 → label = Report.reserve_id) ∧
      ((msg.id &&& 0x07FFF000) >>> 12 = 0x0701 → label = Report.alias_map_definition) ∧
      ((msg.id &&& 0x07FFF000) >>> 12 = 0x0702 → label = Report.alias_mapping_enquiry) ∧
      ((msg.id &&& 0x07FFF000) >>> 12 = 0x0703 → label = Report.alias_map_reset) ∧
      ((msg.id &&& 0x07FFF000) >>> 12 = 0x0710 → label = Report.error_report_0) ∧
      ((msg.id &&& 0x07FFF000) >>> 12 = 0x0711 → label = Report.error_report_1) ∧
      ((msg.id &&& 0x07FFF000) >>> 12 = 0x0712 → label = Report.error_report_2) ∧
      ((msg.id &&& 0x07FFF000) >>> 12 = 0x0713 → label = Report.error_report_3) ∧
      ((msg.id &&& 0x07FFF000) >>> 12 > 0x1000 → label = Report.check_id) ∧
      ((msg.id &&& 0x07FFF000) >>> 12 ∉ [0x0700, 0x0701, 0x0702, 0x0703, 0x0710, 0x0711,
          0x0712, 0x0713] → (msg.id &&& 0x07FFF000) >>> 12 ≤ 0x1000 →
        label = Report.reserved_control) := by
  refine ⟨classify_content (content msg.id), ?_, ?_, ?_⟩
  · simp [classify, openLcbFrame_false h, classify_control, content, frameSeqNum,
      sourceNidAlias]
  · have hc : classify msg = classify_control msg := by
      simp [classify, openLcbFrame_false h]
    have a0 : Report.frame_type_control.is_control_label = false := rfl
    have a1 : ∀ v, (Report.content v).is_control_label = false := fun _ => rfl
    have a2 : ∀ v, (Report.frame_sequence_number v).is_control_label = false := fun _ => rfl
    have a3 : ∀ v, (Report.node_id_checked v).is_control_label = false := fun _ => rfl
    have a4 : ∀ v, (Report.source_nid_alias v).is_control_label = false := fun _ => rfl
    simp [hc, classify_control, List.filter_cons, classify_content_is_label, a0, a1, a2, a3,
      a4]
  · unfold content
    generalize (msg.id &&& 0x07FFF000) >>> 12 = c
    unfold classify_content
    refine ⟨?_, ?_, ?_, ?_, ?_, ?_, ?_, ?_, ?_, ?_⟩
    all_goals intro h1
    any_goals subst h1
    any_goals rfl
    · have e1 : ¬ c = 0x0700 := by omega
      have e2 : ¬ c = 0x0701 := by omega
      have e3 : ¬ c = 0x0702 := by omega
      have e4 : ¬ c = 0x0703 := by omega
      have e5 : ¬ c = 0x0710 := by omega
      have e6 : ¬ c = 0x0711 := by omega
      have e7 : ¬ c = 0x0712 := by omega
      have e8 : ¬ c = 0x0713 := by omega
      simp only [e1, e2, e3, e4, e5, e6, e7, e8, if_false, h1, if_true]
    · intro h2
      simp only [List.mem_cons, List.mem_singleton, List.not_mem_nil, or_false, not_or] at h1
      obtain ⟨e1, e2, e3, e4, e5, e6, e7, e8⟩ := h1
      have e9 : ¬ c > 0x1000 := by omega
      simp only [e1, e2, e3, e4, e5, e6, e7, e8, e9, if_false]

/-- Witness for C7: id `0x00000102` has content 0, is reported reserved, with
frame sequence number 0 and source alias `0x102`. -/
theorem control_frame_classification_witness :
    (0x00000102 &&& 0x08000000 = 0) ∧
    classify ⟨0x00000102, 8, fun _ => 0⟩ =
      [Report.frame_type_control, Report.content 0, Report.reserved_control,
        Report.frame_sequence_number 0, Report.node_id_checked 0,
        Report.source_nid_alias 0x102] := by
  refine ⟨by decide, ?_⟩
  obtain ⟨label, h1, _, _, _, _, _, _, _, _, _, _, h12⟩ :=
    control_frame_classification ⟨0x00000102, 8, fun _ => 0⟩ (by decide)
  rw [h1, h12 (by decide) (by decide)]
  rfl

/-- C8: control-frame round trip. For every content `c <= 0x7FFF` and alias
`a <= 0xFFF`, the identifier `(c << 12) | a` has bit 27 clear, the decoder
extracts content `c`, frame sequence number `c >> 12` and source alias `a`
whatever label the content matches, and for `c = 0x0701` the label is Alias
Map Definition. -/
theorem control_round_trip (c a dlc : Nat) (data : Fin 8 → Nat)
    (hc : c ≤ 0x7FFF) (ha : a ≤ 0xFFF) :
    ((c <<< 12) ||| a) &&& 0x08000000 = 0 ∧
    content ((c <<< 12) ||| a) = c ∧
    frameSeqNum (content ((c <<< 12) ||| a)) = c >>> 12 ∧
    sourceNidAlias ((c <<< 12) ||| a) = a ∧
    classify ⟨(c <<< 12) ||| a, dlc, data⟩ =
      [Report.frame_type_control, Report.content c, classify_content c,
        Report.frame_sequence_number (c >>> 12), Report.node_id_checked (c &&& 0xFFF),
        Report.source_nid_alias a] ∧
    (c = 0x0701 → classify_content c = Report.alias_map_definition) := by
  have ha2 : a < 2 ^ 12 := by omega
  have hid := encode_control_id (c := c) ha2
  have h27 : ((c <<< 12) ||| a) &&& 0x08000000 = 0 :=
    bit27_clear_of_lt (by rw [hid]; omega)
  have hcont : content ((c <<< 12) ||| a) = c := by
    unfold content; rw [content_raw, hid]; omega
  have hal : sourceNidAlias ((c <<< 12) ||| a) = a := by
    unfold sourceNidAlias; rw [and_fff, hid]; omega
  refine ⟨h27, hcont, by rw [hcont]; rfl, hal, ?_, ?_⟩
  · simp only [classify, openLcbFrame_false h27, classify_control, hcont, hal, frameSeqNum]
    rfl
  · intro h; subst h; rfl

/-- Witness for C8: content `0x0701` with alias `0xABC` decodes as Alias Map
Definition. -/
theorem control_round_trip_witness :
    0x0701 ≤ 0x7FFF ∧ 0xABC ≤ 0xFFF ∧
    classify ⟨(0x0701 <<< 12) ||| 0xABC, 0, fun _ => 0⟩ =
      [Report.frame_type_control, Report.content 0x0701, Report.alias_map_definition,
        Report.frame_sequence_number 0, Report.node_id_checked 0x0701,
        Report.source_nid_alias 0xABC] :=
  ⟨by decide, by decide,
    (control_round_trip 0x0701 0xABC 0 (fun _ => 0) (by decide) (by decide)).2.2.2.2.1⟩

/-- C9: format-1 sub-field extraction. For an identifier with bit 27 set and
frame format 1 the decoder reports the fields as the stated bit ranges of the
identifier: grossPriority bits 23:22, typeWithinPriority bits 21:17,
simpleProtocol bit 16, addressPresent bit 15, eventPresent bit 14,
messageModifier bits 13:12, and sourceAddress is bits 11:0. Each value is
within its range and equals the value before narrowing to `uint8_t` or
`uint16_t`. -/
theorem format1_subfields (msg : can2040_msg)
    (h27 : msg.id &&& 0x08000000 ≠ 0) (hff : (msg.id &&& 0x07000000) >>> 24 = 1) :
    classify msg =
      [Report.frame_type_openlcb, Report.frame_format_and_mti 1 (canMTI msg.id),
        Report.format_global_addressed,
        Report.mti_gross_priority (msg.id / 2 ^ 22 % 2 ^ 2),
        Report.mti_minor_priority (msg.id / 2 ^ 17 % 2 ^ 5),
        Report.mti_simple_protocol (msg.id / 2 ^ 16 % 2),
        Report.mti_address_present (msg.id / 2 ^ 15 % 2),
        Report.mti_event_present (msg.id / 2 ^ 14 % 2),
        Report.mti_message_modifier (msg.id / 2 ^ 12 % 2 ^ 2)] ++ classify_mti msg ∧
    (grossPriority msg.id = msg.id / 2 ^ 22 % 2 ^ 2 ∧
      typeWithinPriority msg.id = msg.id / 2 ^ 17 % 2 ^ 5 ∧
      simpleProtocol msg.id = msg.id / 2 ^ 16 % 2 ∧
      addressPresent msg.id = msg.id / 2 ^ 15 % 2 ∧
      eventPresent msg.id = msg.id / 2 ^ 14 % 2 ∧
      messageModifier msg.id = msg.id / 2 ^ 12 % 2 ^ 2 ∧
      sourceAddress msg.id = msg.id % 2 ^ 12) ∧
    (grossPriority msg.id ≤ 3 ∧ typeWithinPriority msg.id ≤ 31 ∧
      simpleProtocol msg.id ≤ 1 ∧ addressPresent msg.id ≤ 1 ∧ eventPresent msg.id ≤ 1 ∧
      messageModifier msg.id ≤ 3 ∧ sourceAddress msg.id ≤ 0xFFF) ∧
    ((msg.id &&& 0x00C00000) >>> 22 < 2 ^ 8 ∧ (msg.id &&& 0x003E0000) >>> 17 < 2 ^ 8 ∧
      (msg.id &&& 0x00010000) >>> 16 < 2 ^ 8 ∧ (msg.id &&& 0x00008000) >>> 15 < 2 ^ 8 ∧
      (msg.id &&& 0x00004000) >>> 14 < 2 ^ 8 ∧ (msg.id &&& 0x00003000) >>> 12 < 2 ^ 8 ∧
      msg.id &&& 0x00000FFF < 2 ^ 16) := by
  have e1 : grossPriority msg.id = msg.id / 2 ^ 22 % 2 ^ 2 := by
    rw [grossPriority_eq, grossPriority_raw]
  have e2 : typeWithinPriority msg.id = msg.id / 2 ^ 17 % 2 ^ 5 := by
    rw [typeWithinPriority_eq, typeWithinPriority_raw]
  have e3 : simpleProtocol msg.id = msg.id / 2 ^ 16 % 2 := by
    rw [simpleProtocol_eq, simpleProtocol_raw, Nat.pow_one]
  have e4 : addressPresent msg.id = msg.id / 2 ^ 15 % 2 := by
    rw [addressPresent_eq, addressPresent_raw, Nat.pow_one]
  have e5 : eventPresent msg.id = msg.id / 2 ^ 14 % 2 := by
    rw [eventPresent_eq, eventPresent_raw, Nat.pow_one]
  have e6 : messageModifier msg.id = msg.id / 2 ^ 12 % 2 ^ 2 := by
    rw [messageModifier_eq, messageModifier_raw]
  have e7 : sourceAddress msg.id = msg.id % 2 ^ 12 := by
    rw [sourceAddress_eq, and_fff]
  have hf : frameFormat msg.id = 1 := by rw [frameFormat_eq, hff]
  refine ⟨?_, ⟨e1, e2, e3, e4, e5, e6, e7⟩, ?_, ?_⟩
  · simp only [classify, openLcbFrame_true h27, classify_openlcb, if_true, hf, ← e1, ← e2, ← e3,
      ← e4, ← e5, ← e6]
    rfl
  · rw [e1, e2, e3, e4, e5, e6, e7]
    refine ⟨?_, ?_, ?_, ?_, ?_, ?_, ?_⟩ <;> omega
  · rw [grossPriority_raw, typeWithinPriority_raw, simpleProtocol_raw, addressPresent_raw,
      eventPresent_raw, messageModifier_raw, and_fff]
    refine ⟨?_, ?_, ?_, ?_, ?_, ?_, ?_⟩ <;> omega

/-- Witness for C9: identifier `0x195B4ABC` (bit 27 set, frame format 1). -/
theorem format1_subfields_witness :
    (0x195B4ABC &&& 0x08000000 ≠ 0) ∧ (0x195B4ABC &&& 0x07000000) >>> 24 = 1 ∧
    classify ⟨0x195B4ABC, 8, fun _ => 0⟩ =
      [Report.frame_type_openlcb, Report.frame_format_and_mti 1 0x5B4,
        Report.format_global_addressed, Report.mti_gross_priority 1,
        Report.mti_minor_priority 13, Report.mti_simple_protocol 1,
        Report.mti_address_present 0, Report.mti_event_present 1,
        Report.mti_message_modifier 0, Report.undeciphered] ∧
    sourceAddress 0x195B4ABC = 0xABC :=
  ⟨by decide, by decide,
    (format1_subfields ⟨0x195B4ABC, 8, fun _ => 0⟩ (by decide) (by decide)).1,
    (format1_subfields ⟨0x195B4ABC, 8, fun _ => 0⟩ (by decide) (by decide)).2.1.2.2.2.2.2.2⟩

/-- C10: Initialization Complete. For every frame whose identifier has bit 27
set, frame format 1, grossPriority 0 and typeWithinPriority 0x08, whatever the
flag bits, modifier, alias, dlc and payload, the message classification is
exactly Initialization Complete, reported with `sourceAddress = id & 0xFFF`
and the `nodeAddress` assembled from payload bytes 0..5. -/
theorem initialization_complete (msg : can2040_msg)
    (h27 : msg.id &&& 0x08000000 ≠ 0) (hff : (msg.id &&& 0x07000000) >>> 24 = 1)
    (hgp : (msg.id &&& 0x00C00000) >>> 22 = 0)
    (htp : (msg.id &&& 0x003E0000) >>> 17 = 0x08) :
    classify_mti msg = [Report.initialisation_complete (msg.id &&& 0xFFF) (nodeAddress msg)] ∧
    classify msg =
      [Report.frame_type_openlcb,
        Report.frame_format_and_mti 1 ((msg.id &&& 0x00FFF000) >>> 12),
        Report.format_global_addressed, Report.mti_gross_priority 0,
        Report.mti_minor_priority 0x08,
        Report.mti_simple_protocol ((msg.id &&& 0x00010000) >>> 16),
        Report.mti_address_present ((msg.id &&& 0x00008000) >>> 15),
        Report.mti_event_present ((msg.id &&& 0x00004000) >>> 14),
        Report.mti_message_modifier ((msg.id &&& 0x00003000) >>> 12),
        Report.initialisation_complete (msg.id &&& 0xFFF) (nodeAddress msg)] ∧
    ((∀ i, msg.data i < 256) →
      nodeAddress msg =
        (msg.data 0 <<< 40) ||| (msg.data 1 <<< 32) ||| (msg.data 2 <<< 24) |||
          (msg.data 3 <<< 16) ||| (msg.data 4 <<< 8) ||| msg.data 5) := by
  have hf : frameFormat msg.id = 1 := by rw [frameFormat_eq, hff]
  have hg : grossPriority msg.id = 0 := by rw [grossPriority_eq, hgp]
  have ht : typeWithinPriority msg.id = 8 := by rw [typeWithinPriority_eq, htp]
  have hm : classify_mti msg =
      [Report.initialisation_complete (msg.id &&& 0xFFF) (nodeAddress msg)] := by
    simp only [classify_mti, hg, ht, sourceAddress_eq]
  refine ⟨hm, ?_, nodeAddress_of_bytes msg⟩
  simp only [classify, openLcbFrame_true h27, classify_openlcb, if_true, hf, hg, ht, hm,
    canMTI_eq, simpleProtocol_eq, addressPresent_eq, eventPresent_eq, messageModifier_eq]
  rfl

/-- Witness for C10: the Initialization Complete frame `0x19100ABC` carrying
node identifier `01.02.03.04.05.06`. -/
theorem initialization_complete_witness :
    (0x19100ABC &&& 0x08000000 ≠ 0) ∧ (0x19100ABC &&& 0x07000000) >>> 24 = 1 ∧
    (0x19100ABC &&& 0x00C00000) >>> 22 = 0 ∧ (0x19100ABC &&& 0x003E0000) >>> 17 = 0x08 ∧
    classify_mti ⟨0x19100ABC, 6, ![1, 2, 3, 4, 5, 6, 0, 0]⟩ =
      [Report.initialisation_complete 0xABC 0x010203040506] :=
  ⟨by decide, by decide, by decide, by decide,
    (initialization_complete ⟨0x19100ABC, 6, ![1, 2, 3, 4, 5, 6, 0, 0]⟩
      (by decide) (by decide) (by decide) (by decide)).1⟩

/-! ## Decoder: message classification of format-1 frames -/

/-- For an OpenLCB frame of format 1 the decoder prints the two header lines,
the format line, the six MTI field lines, and then whatever the nested
`switch` prints. -/
theorem classify_format1 (msg : can2040_msg)
    (h27 : msg.id &&& 0x08000000 ≠ 0) (hff : (msg.id &&& 0x07000000) >>> 24 = 1) :
    classify msg =
      [Report.frame_type_openlcb,
        Report.frame_format_and_mti 1 ((msg.id &&& 0x00FFF000) >>> 12),
        Report.format_global_addressed,
        Report.mti_gross_priority ((msg.id &&& 0x00C00000) >>> 22),
        Report.mti_minor_priority ((msg.id &&& 0x003E0000) >>> 17),
        Report.mti_simple_protocol ((msg.id &&& 0x00010000) >>> 16),
        Report.mti_address_present ((msg.id &&& 0x00008000) >>> 15),
        Report.mti_event_present ((msg.id &&& 0x00004000) >>> 14),
        Report.mti_message_modifier ((msg.id &&& 0x00003000) >>> 12)] ++ classify_mti msg := by
  have hf : frameFormat msg.id = 1 := by rw [frameFormat_eq, hff]
  simp only [classify, openLcbFrame_true h27, classify_openlcb, if_true, hf, canMTI_eq,
    grossPriority_eq, typeWithinPriority_eq, simpleProtocol_eq, addressPresent_eq,
    eventPresent_eq, messageModifier_eq]
  rfl

/-- C11: Consumer Identified. For a frame with bit 27 set, frame format 1,
grossPriority 1 and typeWithinPriority 0x06, messageModifier 0 is reported as
Consumer Identified - Valid, 1 as Invalid, 3 as Unknown, and the remaining
value 2 gets no message classification at all: the decoder output ends after
the six MTI field lines. -/
theorem consumer_identified (msg : can2040_msg)
    (h27 : msg.id &&& 0x08000000 ≠ 0) (hff : (msg.id &&& 0x07000000) >>> 24 = 1)
    (hgp : (msg.id &&& 0x00C00000) >>> 22 = 1)
    (htp : (msg.id &&& 0x003E0000) >>> 17 = 0x06) :
    classify msg =
      [Report.frame_type_openlcb,
        Report.frame_format_and_mti 1 ((msg.id &&& 0x00FFF000) >>> 12),
        Report.format_global_addressed, Report.mti_gross_priority 1,
        Report.mti_minor_priority 0x06,
        Report.mti_simple_protocol ((msg.id &&& 0x00010000) >>> 16),
        Report.mti_address_present ((msg.id &&& 0x00008000) >>> 15),
        Report.mti_event_present ((msg.id &&& 0x00004000) >>> 14),
        Report.mti_message_modifier ((msg.id &&& 0x00003000) >>> 12)] ++ classify_mti msg ∧
    ((msg.id &&& 0x00003000) >>> 12 = 0 →
      classify_mti msg = [Report.consumer_identified_valid]) ∧
    ((msg.id &&& 0x00003000) >>> 12 = 1 →
      classify_mti msg = [Report.consumer_identified_invalid]) ∧
    ((msg.id &&& 0x00003000) >>> 12 = 3 →
      classify_mti msg = [Report.consumer_identified_unknown]) ∧
    ((msg.id &&& 0x00003000) >>> 12 = 2 →
      classify_mti msg = [] ∧ Report.undeciphered ∉ classify msg) ∧
    ((msg.id &&& 0x00003000) >>> 12 = 0 ∨ (msg.id &&& 0x00003000) >>> 12 = 1 ∨
      (msg.id &&& 0x00003000) >>> 12 = 2 ∨ (msg.id &&& 0x00003000) >>> 12 = 3) := by
  have hg : grossPriority msg.id = 1 := by rw [grossPriority_eq, hgp]
  have ht : typeWithinPriority msg.id = 6 := by rw [typeWithinPriority_eq, htp]
  have hc := classify_format1 msg h27 hff
  rw [hgp, htp] at hc
  refine ⟨hc, ?_, ?_, ?_, ?_, ?_⟩
  · intro hm
    have hm2 : messageModifier msg.id = 0 := by rw [messageModifier_eq, hm]
    simp only [classify_mti, hg, ht, hm2]
  · intro hm
    have hm2 : messageModifier msg.id = 1 := by rw [messageModifier_eq, hm]
    simp only [classify_mti, hg, ht, hm2]
  · intro hm
    have hm2 : messageModifier msg.id = 3 := by rw [messageModifier_eq, hm]
    simp only [classify_mti, hg, ht, hm2]
  · intro hm
    have hm2 : messageModifier msg.id = 2 := by rw [messageModifier_eq, hm]
    have he : classify_mti msg = [] := by simp only [classify_mti, hg, ht, hm2]
    refine ⟨he, ?_⟩
    rw [hc, he]
    simp
  · rw [messageModifier_raw]; omega

/-- Witness for C11: the four Consumer Identified identifiers `0x194C4ABC`,
`0x194C5ABC`, `0x194C7ABC` (valid, invalid, unknown) and `0x194C6ABC`
(modifier 2, nothing reported). -/
theorem consumer_identified_witness :
    (0x194C6ABC &&& 0x08000000 ≠ 0) ∧ (0x194C6ABC &&& 0x07000000) >>> 24 = 1 ∧
    (0x194C6ABC &&& 0x00C00000) >>> 22 = 1 ∧ (0x194C6ABC &&& 0x003E0000) >>> 17 = 0x06 ∧
    classify_mti ⟨0x194C4ABC, 8, fun _ => 0⟩ = [Report.consumer_identified_valid] ∧
    classify_mti ⟨0x194C5ABC, 8, fun _ => 0⟩ = [Report.consumer_identified_invalid] ∧
    classify_mti ⟨0x194C7ABC, 8, fun _ => 0⟩ = [Report.consumer_identified_unknown] ∧
    classify_mti ⟨0x194C6ABC, 8, fun _ => 0⟩ = [] :=
  ⟨by decide, by decide, by decide, by decide,
    (consumer_identified ⟨0x194C4ABC, 8, fun _ => 0⟩ (by decide) (by decide) (by decide)
      (by decide)).2.1 (by decide),
    (consumer_identified ⟨0x194C5ABC, 8, fun _ => 0⟩ (by decide) (by decide) (by decide)
      (by decide)).2.2.1 (by decide),
    (consumer_identified ⟨0x194C7ABC, 8, fun _ => 0⟩ (by decide) (by decide) (by decide)
      (by decide)).2.2.2.1 (by decide),
    ((consumer_identified ⟨0x194C6ABC, 8, fun _ => 0⟩ (by decide) (by decide) (by decide)
      (by decide)).2.2.2.2.1 (by decide)).1⟩

/-- The nested `switch` prints Undeciphered whenever the pair
(grossPriority, typeWithinPriority) is neither (0, 0x08) nor (1, 0x06). -/
theorem classify_mti_undeciphered (msg : can2040_msg)
    (h1 : ¬ (grossPriority msg.id = 0 ∧ typeWithinPriority msg.id = 0x08))
    (h2 : ¬ (grossPriority msg.id = 1 ∧ typeWithinPriority msg.id = 0x06)) :
    classify_mti msg = [Report.undeciphered] := by
  unfold classify_mti
  split
  · rename_i hg
    split
    · rename_i ht
      exact absurd ⟨hg, ht⟩ h1
    · rfl
  · rename_i hg
    split
    · rename_i ht
      exact absurd ⟨hg, ht⟩ h2
    · rfl
  · rfl

/-- C12: undeciphered fallback. For a frame with bit 27 set and frame format 1
whose (grossPriority, typeWithinPriority) pair is neither (0, 0x08) nor
(1, 0x06), in particular whenever grossPriority is 2 or 3, the message
classification is exactly Undeciphered. -/
theorem undeciphered_fallback (msg : can2040_msg)
    (h27 : msg.id &&& 0x08000000 ≠ 0) (hff : (msg.id &&& 0x07000000) >>> 24 = 1)
    (h1 : ¬ ((msg.id &&& 0x00C00000) >>> 22 = 0 ∧ (msg.id &&& 0x003E0000) >>> 17 = 0x08))
    (h2 : ¬ ((msg.id &&& 0x00C00000) >>> 22 = 1 ∧ (msg.id &&& 0x003E0000) >>> 17 = 0x06)) :
    classify_mti msg = [Report.undeciphered] ∧
    classify msg =
      [Report.frame_type_openlcb,
        Report.frame_format_and_mti 1 ((msg.id &&& 0x00FFF000) >>> 12),
        Report.format_global_addressed,
        Report.mti_gross_priority ((msg.id &&& 0x00C00000) >>> 22),
        Report.mti_minor_priority ((msg.id &&& 0x003E0000) >>> 17),
        Report.mti_simple_protocol ((msg.id &&& 0x00010000) >>> 16),
        Report.mti_address_present ((msg.id &&& 0x00008000) >>> 15),
        Report.mti_event_present ((msg.id &&& 0x00004000) >>> 14),
        Report.mti_message_modifier ((msg.id &&& 0x00003000) >>> 12),
        Report.undeciphered] := by
  have hu : classify_mti msg = [Report.undeciphered] :=
    classify_mti_undeciphered msg
      (by rw [grossPriority_eq, typeWithinPriority_eq]; exact h1)
      (by rw [grossPriority_eq, typeWithinPriority_eq]; exact h2)
  refine ⟨hu, ?_⟩
  rw [classify_format1 msg h27 hff, hu]
  rfl

/-- Witness for C12: identifier `0x19C00ABC` has grossPriority 3. -/
theorem undeciphered_fallback_witness :
    (0x19C00ABC &&& 0x08000000 ≠ 0) ∧ (0x19C00ABC &&& 0x07000000) >>> 24 = 1 ∧
    (0x19C00ABC &&& 0x00C00000) >>> 22 = 3 ∧
    classify_mti ⟨0x19C00ABC, 8, fun _ => 0⟩ = [Report.undeciphered] :=
  ⟨by decide, by decide, by decide,
    (undeciphered_fallback ⟨0x19C00ABC, 8, fun _ => 0⟩ (by decide) (by decide) (by decide)
      (by decide)).1⟩

/-! ## Decoder: totality -/

theorem classify_control_labels (msg : can2040_msg) (h : msg.id &&& 0x08000000 = 0) :
    (classify msg).filter Report.is_control_label = [classify_content (content msg.id)] := by
  have hc : classify msg = classify_control msg := by
    simp [classify, openLcbFrame_false h]
  have a0 : Report.frame_type_control.is_control_label = false := rfl
  have a1 : ∀ v, (Report.content v).is_control_label = false := fun _ => rfl
  have a2 : ∀ v, (Report.frame_sequence_number v).is_control_label = false := fun _ => rfl
  have a3 : ∀ v, (Report.node_id_checked v).is_control_label = false := fun _ => rfl
  have a4 : ∀ v, (Report.source_nid_alias v).is_control_label = false := fun _ => rfl
  simp [hc, classify_control, List.filter_cons, classify_content_is_label, a0, a1, a2, a3,
    a4]

theorem classify_mti_no_format_label (msg : can2040_msg) :
    (classify_mti msg).filter Report.is_format_label = [] := by
  unfold classify_mti
  repeat' split
  all_goals rfl

theorem classify_mti_all_message_labels (msg : can2040_msg) :
    (classify_mti msg).filter Report.is_message_label = classify_mti msg := by
  unfold classify_mti
  repeat' split
  all_goals rfl

theorem classify_mti_length (msg : can2040_msg) :
    (classify_mti msg).length =
      if grossPriority msg.id = 1 ∧ typeWithinPriority msg.id = 0x06 ∧
          messageModifier msg.id = 2 then 0 else 1 := by
  have hm : messageModifier msg.id ≤ 3 := by
    rw [messageModifier_eq, messageModifier_raw]; omega
  unfold classify_mti
  split
  · rename_i hg
    have : ¬ (grossPriority msg.id = 1 ∧ typeWithinPriority msg.id = 0x06 ∧
        messageModifier msg.id = 2) := by omega
    rw [if_neg this]
    split <;> rfl
  · rename_i hg
    split
    · rename_i ht
      split
      · rename_i h0
        rw [if_neg (by omega)]; rfl
      · rename_i h0
        rw [if_neg (by omega)]; rfl
      · rename_i h0
        rw [if_neg (by omega)]; rfl
      · rename_i h0 h1 h3
        have h2 : messageModifier msg.id = 2 := by
          have e0 : messageModifier msg.id ≠ 0 := h0
          have e1 : messageModifier msg.id ≠ 1 := h1
          have e3 : messageModifier msg.id ≠ 3 := h3
          omega
        rw [if_pos ⟨hg, ht, h2⟩]; rfl
    · rename_i ht
      have : ¬ (grossPriority msg.id = 1 ∧ typeWithinPriority msg.id = 0x06 ∧
          messageModifier msg.id = 2) := by
        intro hh; exact ht hh.2.1
      rw [if_neg this]; rfl
  · rename_i hg0 hg1
    have : ¬ (grossPriority msg.id = 1 ∧ typeWithinPriority msg.id = 0x06 ∧
        messageModifier msg.id = 2) := by
      intro hh; exact hg1 hh.1
    rw [if_neg this]; rfl

theorem classify_openlcb_format_labels (msg : can2040_msg) (h : msg.id &&& 0x08000000 ≠ 0) :
    ((classify msg).filter Report.is_format_label).length = 1 := by
  have hle : (msg.id &&& 0x07000000) >>> 24 ≤ 7 := by rw [frameFormat_raw]; omega
  by_cases h1 : (msg.id &&& 0x07000000) >>> 24 = 1
  · rw [classify_format1 msg h h1, List.filter_append, classify_mti_no_format_label]
    rfl
  · have hff := frameFormat_eq msg.id
    have hc : (msg.id &&& 0x07000000) >>> 24 = 0 ∨ (msg.id &&& 0x07000000) >>> 24 = 2 ∨
        (msg.id &&& 0x07000000) >>> 24 = 3 ∨ (msg.id &&& 0x07000000) >>> 24 = 4 ∨
        (msg.id &&& 0x07000000) >>> 24 = 5 ∨ (msg.id &&& 0x07000000) >>> 24 = 6 ∨
        (msg.id &&& 0x07000000) >>> 24 = 7 := by omega
    simp only [classify, openLcbFrame_true h, classify_openlcb, if_true, hff]
    rcases hc with e | e | e | e | e | e | e <;> rw [e] <;> rfl

/-- C13 (counterexample): identifier `0x194C6ABC` has bit 27 set, frame
format 1, grossPriority 1, typeWithinPriority 0x06 and messageModifier 2; the
decoder reports no message classification for it, not exactly one. -/
theorem decoder_totality_counterexample :
    (0x194C6ABC &&& 0x08000000 ≠ 0) ∧ (0x194C6ABC &&& 0x07000000) >>> 24 = 1 ∧
    (classify ⟨0x194C6ABC, 8, fun _ => 0⟩).filter Report.is_message_label = [] ∧
    ¬ ((classify ⟨0x194C6ABC, 8, fun _ => 0⟩).filter Report.is_message_label).length = 1 := by
  decide

/-- C13 (amended): the decoder is a total function with a non-empty report for
every identifier, payload and dlc. Every control frame gets exactly one content
label and every OpenLCB frame exactly one format label. A format-1 frame gets
exactly one message classification, except that grossPriority 1 with
typeWithinPriority 0x06 and messageModifier 2 gets none: the innermost default
prints nothing, while the other two defaults of the nested `switch` print
Undeciphered. -/
theorem decoder_totality (msg : can2040_msg) :
    classify msg ≠ [] ∧
    (msg.id &&& 0x08000000 = 0 →
      ((classify msg).filter Report.is_control_label).length = 1) ∧
    (msg.id &&& 0x08000000 ≠ 0 →
      ((classify msg).filter Report.is_format_label).length = 1) ∧
    (msg.id &&& 0x08000000 ≠ 0 → (msg.id &&& 0x07000000) >>> 24 = 1 →
      ((classify msg).filter Report.is_message_label).length =
        if (msg.id &&& 0x00C00000) >>> 22 = 1 ∧ (msg.id &&& 0x003E0000) >>> 17 = 0x06 ∧
            (msg.id &&& 0x00003000) >>> 12 = 2 then 0 else 1) ∧
    (¬ ((msg.id &&& 0x00C00000) >>> 22 = 0 ∧ (msg.id &&& 0x003E0000) >>> 17 = 0x08) →
      ¬ ((msg.id &&& 0x00C00000) >>> 22 = 1 ∧ (msg.id &&& 0x003E0000) >>> 17 = 0x06) →
      classify_mti msg = [Report.undeciphered]) := by
  refine ⟨?_, ?_, ?_, ?_, ?_⟩
  · unfold classify
    split
    · simp [classify_openlcb]
    · simp [classify_control]
  · intro h
    rw [classify_control_labels msg h]
    rfl
  · exact classify_openlcb_format_labels msg
  · intro h27 hff
    rw [classify_format1 msg h27 hff, List.filter_append, classify_mti_all_message_labels,
      List.length_append, classify_mti_length, grossPriority_eq, typeWithinPriority_eq,
      messageModifier_eq]
    simp [List.filter_cons, Report.is_message_label]
  · intro h1 h2
    exact classify_mti_undeciphered msg
      (by rw [grossPriority_eq, typeWithinPriority_eq]; exact h1)
      (by rw [grossPriority_eq, typeWithinPriority_eq]; exact h2)

/-! ## Decoder: node identifier -/

/-- Or-ing a value below `2^k` onto a multiple of `2^k` adds it. -/
theorem or_eq_add_of_mod {x b : Nat} (k : Nat) (hx : x % 2 ^ k = 0) (hb : b < 2 ^ k) :
    x ||| b = x + b := by
  have hx2 : x = 2 ^ k * (x / 2 ^ k) := by
    have := Nat.div_add_mod x (2 ^ k)
    omega
  rw [hx2]
  exact (Nat.mul_add_lt_is_or hb _).symm

theorem nodeAddress_eq_sum (m : can2040_msg) (h : ∀ i, m.data i < 256) :
    nodeAddress m =
      m.data 0 * 2 ^ 40 + m.data 1 * 2 ^ 32 + m.data 2 * 2 ^ 24 + m.data 3 * 2 ^ 16 +
        m.data 4 * 2 ^ 8 + m.data 5 := by
  have b0 := h 0
  have b1 := h 1
  have b2 := h 2
  have b3 := h 3
  have b4 := h 4
  have b5 := h 5
  rw [nodeAddress_of_bytes m h]
  simp only [Nat.shiftLeft_eq]
  have s1 : m.data 0 * 2 ^ 40 ||| m.data 1 * 2 ^ 32 = m.data 0 * 2 ^ 40 + m.data 1 * 2 ^ 32 :=
    or_eq_add_of_mod 40 (by omega) (by omega)
  rw [s1]
  have s2 : m.data 0 * 2 ^ 40 + m.data 1 * 2 ^ 32 ||| m.data 2 * 2 ^ 24 =
      m.data 0 * 2 ^ 40 + m.data 1 * 2 ^ 32 + m.data 2 * 2 ^ 24 :=
    or_eq_add_of_mod 32 (by omega) (by omega)
  rw [s2]
  have s3 : m.data 0 * 2 ^ 40 + m.data 1 * 2 ^ 32 + m.data 2 * 2 ^ 24 ||| m.data 3 * 2 ^ 16 =
      m.data 0 * 2 ^ 40 + m.data 1 * 2 ^ 32 + m.data 2 * 2 ^ 24 + m.data 3 * 2 ^ 16 :=
    or_eq_add_of_mod 24 (by omega) (by omega)
  rw [s3]
  have s4 : m.data 0 * 2 ^ 40 + m.data 1 * 2 ^ 32 + m.data 2 * 2 ^ 24 + m.data 3 * 2 ^ 16 |||
      m.data 4 * 2 ^ 8 =
      m.data 0 * 2 ^ 40 + m.data 1 * 2 ^ 32 + m.data 2 * 2 ^ 24 + m.data 3 * 2 ^ 16 +
        m.data 4 * 2 ^ 8 :=
    or_eq_add_of_mod 16 (by omega) (by omega)
  rw [s4]
  exact or_eq_add_of_mod 8 (by omega) (by omega)

theorem nodeAddress_congr (m m1 : can2040_msg)
    (h : ∀ i : Fin 8, i.val < 6 → m1.data i = m.data i) : nodeAddress m1 = nodeAddress m := by
  unfold nodeAddress
  rw [h 0 (by decide), h 1 (by decide), h 2 (by decide), h 3 (by decide), h 4 (by decide),
    h 5 (by decide)]

/-- C14: node identifier assembly. For a payload of eight bytes the decoded
`nodeAddress` is `d[0]*2^40 + d[1]*2^32 + d[2]*2^24 + d[3]*2^16 + d[4]*2^8 +
d[5]`, byte 0 most significant; it is below `2^48`, does not depend on `d[6]`,
`d[7]` or dlc, and two payloads with the same `nodeAddress` have the same first
six bytes. -/
theorem node_address_assembly (m : can2040_msg) (h : ∀ i, m.data i < 256) :
    nodeAddress m =
      m.data 0 * 2 ^ 40 + m.data 1 * 2 ^ 32 + m.data 2 * 2 ^ 24 + m.data 3 * 2 ^ 16 +
        m.data 4 * 2 ^ 8 + m.data 5 ∧
    nodeAddress m < 2 ^ 48 ∧
    (∀ m1 : can2040_msg, (∀ i : Fin 8, i.val < 6 → m1.data i = m.data i) →
      nodeAddress m1 = nodeAddress m) ∧
    (∀ m1 : can2040_msg, (∀ i, m1.data i < 256) → nodeAddress m1 = nodeAddress m →
      ∀ i : Fin 8, i.val < 6 → m1.data i = m.data i) := by
  have hs := nodeAddress_eq_sum m h
  have b0 := h 0
  have b1 := h 1
  have b2 := h 2
  have b3 := h 3
  have b4 := h 4
  have b5 := h 5
  refine ⟨hs, by omega, nodeAddress_congr m, ?_⟩
  intro m1 h1 he i hi
  have hs1 := nodeAddress_eq_sum m1 h1
  have c0 := h1 0
  have c1 := h1 1
  have c2 := h1 2
  have c3 := h1 3
  have c4 := h1 4
  have c5 := h1 5
  rw [hs, hs1] at he
  have e0 : m1.data 0 = m.data 0 := by omega
  have e1 : m1.data 1 = m.data 1 := by omega
  have e2 : m1.data 2 = m.data 2 := by omega
  have e3 : m1.data 3 = m.data 3 := by omega
  have e4 : m1.data 4 = m.data 4 := by omega
  have e5 : m1.data 5 = m.data 5 := by omega
  fin_cases i
  · exact e0
  · exact e1
  · exact e2
  · exact e3
  · exact e4
  · exact e5
  · exact absurd hi (by decide)
  · exact absurd hi (by decide)

/-- Witness for C14: the payload `01 02 03 04 05 06 FF FF` with dlc 6 gives node
identifier `0x010203040506`. -/
theorem node_address_assembly_witness :
    (∀ i, (![1, 2, 3, 4, 5, 6, 0xFF, 0xFF] : Fin 8 → Nat) i < 256) ∧
    nodeAddress ⟨0x19100ABC, 6, ![1, 2, 3, 4, 5, 6, 0xFF, 0xFF]⟩ = 0x010203040506 :=
  ⟨by decide,
    (node_address_assembly ⟨0x19100ABC, 6, ![1, 2, 3, 4, 5, 6, 0xFF, 0xFF]⟩ (by decide)).1⟩

/-! ## Queue: index wraparound and the rejection test -/

/-- C16: power-of-two index wraparound. The slot index `p % 128` used by push
and pop equals the bitmask `p & 127`, is below 128, and advances cyclically
when the 32-bit counter is incremented, also across the counter overflow at
`p = 2^32 - 1`. -/
theorem slot_wraparound (p : Nat) :
    (slot p).val = p % QUEUE_SIZE ∧
    p % 128 = p &&& 127 ∧
    (slot p).val < 128 ∧
    ((p + 1) % 2 ^ 32) % 128 = ((p % 128) + 1) % 128 ∧
    slot ((p + 1) % UINT32_MOD) = slot ((slot p).val + 1) ∧
    slot ((2 ^ 32 - 1 + 1) % UINT32_MOD) = slot ((slot (2 ^ 32 - 1)).val + 1) := by
  refine ⟨rfl, (Nat.and_pow_two_sub_one_eq_mod p 7).symm, (slot p).isLt, by omega, ?_, by decide⟩
  rw [slot_eq_iff]
  simp only [slot, QUEUE_SIZE, UINT32_MOD]
  omega

/-- C17: exact rejection condition of push. With both counters in `uint32_t`
range, push leaves the whole state unchanged exactly when
`(push_pos + 1) mod 2^32 == pull_pos`, which is exactly when
`(push_pos - pull_pos) mod 2^32 == 2^32 - 1`; in every other state push stores
the frame in `queue[push_pos % 128]`, increments `push_pos` and changes
nothing else. -/
theorem push_rejects_iff (q : MessageQueue) (msg : can2040_msg)
    (h1 : q.push_pos < 2 ^ 32) (h2 : q.pull_pos < 2 ^ 32) :
    (push q msg = q ↔ (q.push_pos + 1) % 2 ^ 32 = q.pull_pos) ∧
    ((q.push_pos + 1) % 2 ^ 32 = q.pull_pos ↔ held q = 2 ^ 32 - 1) ∧
    ((q.push_pos + 1) % 2 ^ 32 ≠ q.pull_pos →
      (push q msg).queue (slot q.push_pos) = msg ∧
      (push q msg).push_pos = (q.push_pos + 1) % 2 ^ 32 ∧
      (push q msg).pull_pos = q.pull_pos ∧
      ∀ i, i ≠ slot q.push_pos → (push q msg).queue i = q.queue i) := by
  refine ⟨?_, ?_, ?_⟩
  · constructor
    · intro he
      by_contra hne
      have hp := congrArg MessageQueue.push_pos he
      simp only [push, UINT32_MOD, if_neg hne] at hp
      omega
    · intro h
      simp only [push, UINT32_MOD, if_pos h]
  · unfold held UINT32_MOD
    omega
  · intro hne
    simp only [push, UINT32_MOD, if_neg hne, Function.update_same, true_and]
    intro i hi
    exact Function.update_noteq hi _ _

/-- Witness for C17: `push_pos = 0xFFFFFFFF`, `pull_pos = 0` is the state the
test treats as full. -/
theorem push_rejects_iff_witness :
    (2 ^ 32 - 1 < 2 ^ 32) ∧ (0 < 2 ^ 32) ∧
    push ⟨0, 2 ^ 32 - 1, fun _ => zero_msg⟩ (frame 7) = ⟨0, 2 ^ 32 - 1, fun _ => zero_msg⟩ :=
  ⟨by decide, by decide,
    (push_rejects_iff ⟨0, 2 ^ 32 - 1, fun _ => zero_msg⟩ (frame 7) (by decide) (by decide)).1.2
      (by decide)⟩

/-! ## Decoder: the sub-fields partition the identifier -/

theorem or_fields_id {g t s a e m sa : Nat} (ht : t < 2 ^ 5) (hs : s < 2) (ha : a < 2)
    (he : e < 2) (hm : m < 2 ^ 2) (hsa : sa < 2 ^ 12) :
    (g <<< 22) ||| (t <<< 17) ||| (s <<< 16) ||| (a <<< 15) ||| (e <<< 14) ||| (m <<< 12) |||
      sa =
      g * 2 ^ 22 + t * 2 ^ 17 + s * 2 ^ 16 + a * 2 ^ 15 + e * 2 ^ 14 + m * 2 ^ 12 + sa := by
  simp only [Nat.shiftLeft_eq]
  have s1 : g * 2 ^ 22 ||| t * 2 ^ 17 = g * 2 ^ 22 + t * 2 ^ 17 :=
    or_eq_add_of_mod 22 (by omega) (by omega)
  rw [s1]
  have s2 : g * 2 ^ 22 + t * 2 ^ 17 ||| s * 2 ^ 16 = g * 2 ^ 22 + t * 2 ^ 17 + s * 2 ^ 16 :=
    or_eq_add_of_mod 17 (by omega) (by omega)
  rw [s2]
  have s3 : g * 2 ^ 22 + t * 2 ^ 17 + s * 2 ^ 16 ||| a * 2 ^ 15 =
      g * 2 ^ 22 + t * 2 ^ 17 + s * 2 ^ 16 + a * 2 ^ 15 :=
    or_eq_add_of_mod 16 (by omega) (by omega)
  rw [s3]
  have s4 : g * 2 ^ 22 + t * 2 ^ 17 + s * 2 ^ 16 + a * 2 ^ 15 ||| e * 2 ^ 14 =
      g * 2 ^ 22 + t * 2 ^ 17 + s * 2 ^ 16 + a * 2 ^ 15 + e * 2 ^ 14 :=
    or_eq_add_of_mod 15 (by omega) (by omega)
  rw [s4]
  have s5 : g * 2 ^ 22 + t * 2 ^ 17 + s * 2 ^ 16 + a * 2 ^ 15 + e * 2 ^ 14 ||| m * 2 ^ 12 =
      g * 2 ^ 22 + t * 2 ^ 17 + s * 2 ^ 16 + a * 2 ^ 15 + e * 2 ^ 14 + m * 2 ^ 12 :=
    or_eq_add_of_mod 14 (by omega) (by omega)
  rw [s5]
  exact or_eq_add_of_mod 12 (by omega) (by omega)

theorem or_fields_mti {g t s a e m : Nat} (ht : t < 2 ^ 5) (hs : s < 2) (ha : a < 2)
    (he : e < 2) (hm : m < 2 ^ 2) :
    (g <<< 10) ||| (t <<< 5) ||| (s <<< 4) ||| (a <<< 3) ||| (e <<< 2) ||| m =
      g * 2 ^ 10 + t * 2 ^ 5 + s * 2 ^ 4 + a * 2 ^ 3 + e * 2 ^ 2 + m := by
  simp only [Nat.shiftLeft_eq]
  have s1 : g * 2 ^ 10 ||| t * 2 ^ 5 = g * 2 ^ 10 + t * 2 ^ 5 :=
    or_eq_add_of_mod 10 (by omega) (by omega)
  rw [s1]
  have s2 : g * 2 ^ 10 + t * 2 ^ 5 ||| s * 2 ^ 4 = g * 2 ^ 10 + t * 2 ^ 5 + s * 2 ^ 4 :=
    or_eq_add_of_mod 5 (by omega) (by omega)
  rw [s2]
  have s3 : g * 2 ^ 10 + t * 2 ^ 5 + s * 2 ^ 4 ||| a * 2 ^ 3 =
      g * 2 ^ 10 + t * 2 ^ 5 + s * 2 ^ 4 + a * 2 ^ 3 :=
    or_eq_add_of_mod 4 (by omega) (by omega)
  rw [s3]
  have s4 : g * 2 ^ 10 + t * 2 ^ 5 + s * 2 ^ 4 + a * 2 ^ 3 ||| e * 2 ^ 2 =
      g * 2 ^ 10 + t * 2 ^ 5 + s * 2 ^ 4 + a * 2 ^ 3 + e * 2 ^ 2 :=
    or_eq_add_of_mod 3 (by omega) (by omega)
  rw [s4]
  exact or_eq_add_of_mod 2 (by omega) (by omega)

/-- C18: the format-1 sub-fields partition the low 24 identifier bits. Shifted
back to their positions and or-ed together they give `id & 0x00FFFFFF`; the
12-bit `canMTI = (id & 0x00FFF000) >> 12` is the six MTI fields packed as
`(grossPriority << 10) | (typeWithinPriority << 5) | (simpleProtocol << 4) |
(addressPresent << 3) | (eventPresent << 2) | messageModifier`; and for a
control frame `content == (frameSeqNum << 12) | (content & 0xFFF)` with
`frameSeqNum <= 7`. -/
theorem subfields_partition (id : Nat) :
    (grossPriority id <<< 22) ||| (typeWithinPriority id <<< 17) |||
      (simpleProtocol id <<< 16) ||| (addressPresent id <<< 15) |||
      (eventPresent id <<< 14) ||| (messageModifier id <<< 12) ||| sourceAddress id =
      id &&& 0x00FFFFFF ∧
    canMTI id = (id &&& 0x00FFF000) >>> 12 ∧
    canMTI id =
      (grossPriority id <<< 10) ||| (typeWithinPriority id <<< 5) |||
        (simpleProtocol id <<< 4) ||| (addressPresent id <<< 3) |||
        (eventPresent id <<< 2) ||| messageModifier id ∧
    content id = (frameSeqNum (content id) <<< 12) ||| (content id &&& 0xFFF) ∧
    frameSeqNum (content id) ≤ 7 := by
  have eg : grossPriority id = id / 2 ^ 22 % 2 ^ 2 := by
    rw [grossPriority_eq, grossPriority_raw]
  have et : typeWithinPriority id = id / 2 ^ 17 % 2 ^ 5 := by
    rw [typeWithinPriority_eq, typeWithinPriority_raw]
  have es : simpleProtocol id = id / 2 ^ 16 % 2 := by
    rw [simpleProtocol_eq, simpleProtocol_raw, Nat.pow_one]
  have ea : addressPresent id = id / 2 ^ 15 % 2 := by
    rw [addressPresent_eq, addressPresent_raw, Nat.pow_one]
  have ee : eventPresent id = id / 2 ^ 14 % 2 := by
    rw [eventPresent_eq, eventPresent_raw, Nat.pow_one]
  have em : messageModifier id = id / 2 ^ 12 % 2 ^ 2 := by
    rw [messageModifier_eq, messageModifier_raw]
  have esa : sourceAddress id = id % 2 ^ 12 := by rw [sourceAddress_eq, and_fff]
  have emti : canMTI id = id / 2 ^ 12 % 2 ^ 12 := by rw [canMTI_eq, canMTI_raw]
  have ec : content id = id / 2 ^ 12 % 2 ^ 15 := by unfold content; rw [content_raw]
  refine ⟨?_, canMTI_eq id, ?_, ?_, ?_⟩
  · rw [or_fields_id (by omega) (by omega) (by omega) (by omega) (by omega) (by omega),
      show (0x00FFFFFF : Nat) = 2 ^ 24 - 1 from by decide, Nat.and_pow_two_sub_one_eq_mod]
    omega
  · rw [or_fields_mti (by omega) (by omega) (by omega) (by omega) (by omega)]
    omega
  · unfold frameSeqNum
    rw [and_fff, Nat.shiftRight_eq_div_pow, Nat.shiftLeft_eq,
      or_eq_add_of_mod 12 (by omega) (by omega)]
    omega
  · unfold frameSeqNum
    rw [Nat.shiftRight_eq_div_pow]
    omega

/-! ## Decoder: independence from unused inputs -/

/-- A mask below `2^28` only looks at bits 27..0. -/
theorem and_low_mask (x mask : Nat) (hm : mask < 2 ^ 28) :
    x &&& mask = (x % 2 ^ 28) &&& mask := by
  apply Nat.eq_of_testBit_eq
  intro i
  simp only [Nat.testBit_and, Nat.testBit_mod_two_pow]
  by_cases hi : i < 28
  · simp [hi]
  · have hlt : mask < 2 ^ i :=
      Nat.lt_of_lt_of_le hm (Nat.pow_le_pow_right (by decide) (by omega))
    simp [Nat.testBit_lt_two_pow hlt]

theorem and_congr_low {x y : Nat} (h : x % 2 ^ 28 = y % 2 ^ 28) (mask : Nat)
    (hm : mask < 2 ^ 28) : x &&& mask = y &&& mask := by
  rw [and_low_mask x mask hm, and_low_mask y mask hm, h]

/-- The nested `switch` of lines 135-168 written as an `if` chain. -/
theorem classify_mti_eq_ite (msg : can2040_msg) :
    classify_mti msg =
      if grossPriority msg.id = 0 then
        if typeWithinPriority msg.id = 0x08 then
          [Report.initialisation_complete (sourceAddress msg.id) (nodeAddress msg)]
        else [Report.undeciphered]
      else if grossPriority msg.id = 1 then
        if typeWithinPriority msg.id = 0x06 then
          if messageModifier msg.id = 0 then [Report.consumer_identified_valid]
          else if messageModifier msg.id = 1 then [Report.consumer_identified_invalid]
          else if messageModifier msg.id = 3 then [Report.consumer_identified_unknown]
          else []
        else [Report.undeciphered]
      else [Report.undeciphered] := by
  unfold classify_mti
  repeat' split
  all_goals simp_all

theorem fields_congr_low {x y : Nat} (h : x % 2 ^ 28 = y % 2 ^ 28) :
    openLcbFrame x = openLcbFrame y ∧ frameFormat x = frameFormat y ∧ canMTI x = canMTI y ∧
    grossPriority x = grossPriority y ∧ typeWithinPriority x = typeWithinPriority y ∧
    simpleProtocol x = simpleProtocol y ∧ addressPresent x = addressPresent y ∧
    eventPresent x = eventPresent y ∧ messageModifier x = messageModifier y ∧
    sourceAddress x = sourceAddress y ∧ content x = content y ∧
    sourceNidAlias x = sourceNidAlias y := by
  unfold openLcbFrame frameFormat canMTI grossPriority typeWithinPriority simpleProtocol
    addressPresent eventPresent messageModifier sourceAddress content sourceNidAlias
  rw [and_congr_low h 0x8000000 (by decide), and_congr_low h 0x07000000 (by decide),
    and_congr_low h 0x00FFF000 (by decide), and_congr_low h 0x00C00000 (by decide),
    and_congr_low h 0x003E0000 (by decide), and_congr_low h 0x00010000 (by decide),
    and_congr_low h 0x00008000 (by decide), and_congr_low h 0x00004000 (by decide),
    and_congr_low h 0x00003000 (by decide), and_congr_low h 0x00000FFF (by decide),
    and_congr_low h 0x07FFF000 (by decide)]
  simp

theorem classify_control_congr {m1 m2 : can2040_msg} (h : m1.id % 2 ^ 28 = m2.id % 2 ^ 28) :
    classify_control m1 = classify_control m2 := by
  obtain ⟨_, _, _, _, _, _, _, _, _, _, f11, f12⟩ := fields_congr_low h
  unfold classify_control
  rw [f11, f12]

theorem classify_mti_forget {m1 m2 : can2040_msg} (h : m1.id % 2 ^ 28 = m2.id % 2 ^ 28) :
    (classify_mti m1).map Report.forget_node = (classify_mti m2).map Report.forget_node := by
  obtain ⟨_, _, _, f4, f5, _, _, _, f9, f10, _, _⟩ := fields_congr_low h
  rw [classify_mti_eq_ite, classify_mti_eq_ite, f4, f5, f9, f10]
  have hic : ∀ a b, Report.forget_node (Report.initialisation_complete a b) =
      Report.initialisation_complete a 0 := fun _ _ => rfl
  split_ifs
  · simp only [List.map_cons, List.map_nil, hic]
  all_goals rfl

theorem classify_mti_congr {m1 m2 : can2040_msg} (h : m1.id % 2 ^ 28 = m2.id % 2 ^ 28)
    (hn : nodeAddress m1 = nodeAddress m2 ∨
      ¬ (grossPriority m2.id = 0 ∧ typeWithinPriority m2.id = 0x08)) :
    classify_mti m1 = classify_mti m2 := by
  obtain ⟨_, _, _, f4, f5, _, _, _, f9, f10, _, _⟩ := fields_congr_low h
  rw [classify_mti_eq_ite, classify_mti_eq_ite, f4, f5, f9, f10]
  rcases hn with hn | hn
  · rw [hn]
  · split_ifs with a b
    · exact absurd ⟨a, b⟩ hn
    all_goals rfl

theorem classify_openlcb_forget {m1 m2 : can2040_msg} (h : m1.id % 2 ^ 28 = m2.id % 2 ^ 28) :
    (classify_openlcb m1).map Report.forget_node =
      (classify_openlcb m2).map Report.forget_node := by
  obtain ⟨_, f2, f3, f4, f5, f6, f7, f8, f9, _, _, _⟩ := fields_congr_low h
  unfold classify_openlcb
  rw [f2, f3, f4, f5, f6, f7, f8, f9]
  by_cases h1 : frameFormat m2.id = 1
  · have h0 : ¬ frameFormat m2.id = 0 := by omega
    rw [if_neg h0, if_pos h1, if_neg h0, if_pos h1]
    simp only [List.map_append, classify_mti_forget h]
  · simp only [if_neg h1]

theorem classify_openlcb_congr {m1 m2 : can2040_msg} (h : m1.id % 2 ^ 28 = m2.id % 2 ^ 28)
    (hn : classify_mti m1 = classify_mti m2 ∨ frameFormat m2.id ≠ 1) :
    classify_openlcb m1 = classify_openlcb m2 := by
  obtain ⟨_, f2, f3, f4, f5, f6, f7, f8, f9, _, _, _⟩ := fields_congr_low h
  unfold classify_openlcb
  rw [f2, f3, f4, f5, f6, f7, f8, f9]
  rcases hn with hn | hn
  · rw [hn]
  · simp only [if_neg hn]

/-- C19: decoder independence from unused inputs. For two frames whose
identifiers agree on bits 27..0, whatever bits 28..31, dlc and payload are, the
decoder reports the same lines up to the `nodeAddress` argument of the
Initialization Complete line; the reports are identical when the two
`nodeAddress` values agree, and identical outright unless the frame is a
format-1 Initialization Complete frame. -/
theorem decoder_independence (m1 m2 : can2040_msg) (h : m1.id % 2 ^ 28 = m2.id % 2 ^ 28) :
    (classify m1).map Report.forget_node = (classify m2).map Report.forget_node ∧
    (nodeAddress m1 = nodeAddress m2 → classify m1 = classify m2) ∧
    (¬ (m1.id &&& 0x08000000 ≠ 0 ∧ (m1.id &&& 0x07000000) >>> 24 = 1 ∧
        (m1.id &&& 0x00C00000) >>> 22 = 0 ∧ (m1.id &&& 0x003E0000) >>> 17 = 0x08) →
      classify m1 = classify m2) := by
  obtain ⟨f1, f2, _, f4, f5, _, _, _, _, _, _, _⟩ := fields_congr_low h
  refine ⟨?_, ?_, ?_⟩
  · unfold classify
    rw [f1, classify_control_congr h]
    split
    · exact classify_openlcb_forget h
    · rfl
  · intro hn
    unfold classify
    rw [f1, classify_control_congr h,
      classify_openlcb_congr h (Or.inl (classify_mti_congr h (Or.inl hn)))]
  · intro hni
    unfold classify
    rw [f1, classify_control_congr h]
    split
    · rename_i ho
      by_cases hf : frameFormat m2.id = 1
      · have hq : ¬ (grossPriority m2.id = 0 ∧ typeWithinPriority m2.id = 0x08) := by
          rintro ⟨c, d⟩
          apply hni
          rw [← f1] at ho
          rw [← f2, frameFormat_eq] at hf
          rw [← f4, grossPriority_eq] at c
          rw [← f5, typeWithinPriority_eq] at d
          refine ⟨?_, hf, c, d⟩
          simpa [openLcbFrame] using ho
        exact classify_openlcb_congr h (Or.inl (classify_mti_congr h (Or.inr hq)))
      · exact classify_openlcb_congr h (Or.inr hf)
    · rfl

/-- Witness for C19: `0x19100ABC` and `0xE9100ABC` differ in bits 28..31, the
two frames differ in dlc and in payload bytes 6 and 7. -/
theorem decoder_independence_witness :
    (0x19100ABC % 2 ^ 28 = 0xE9100ABC % 2 ^ 28) ∧
    classify ⟨0x19100ABC, 6, ![1, 2, 3, 4, 5, 6, 0, 0]⟩ =
      classify ⟨0xE9100ABC, 8, ![1, 2, 3, 4, 5, 6, 0xFF, 0xFF]⟩ :=
  ⟨by decide,
    (decoder_independence ⟨0x19100ABC, 6, ![1, 2, 3, 4, 5, 6, 0, 0]⟩
      ⟨0xE9100ABC, 8, ![1, 2, 3, 4, 5, 6, 0xFF, 0xFF]⟩ (by decide)).2.1 (by decide)⟩

/-! ## Queue: hand-off under preemption -/

theorem push_steps_eq_push (q : MessageQueue) (msg : can2040_msg) :
    push_steps q msg = push q msg := rfl

theorem represents_write_slot {q : MessageQueue} {l : List can2040_msg} (msg : can2040_msg)
    (hr : Represents q l) (hl : l.length < 128) :
    Represents (push_write_slot q q.push_pos msg) l := by
  obtain ⟨h1, h2, h3, h4⟩ := hr
  refine ⟨h1, h2, h3, ?_⟩
  intro i hi
  have hs : slot (q.pull_pos + i) ≠ slot q.push_pos := by
    rw [Ne, slot_eq_iff]; omega
  simp only [push_write_slot]
  rw [Function.update_noteq hs]
  exact h4 i hi

theorem irq_pull_pos (msgs : List can2040_msg) :
    ∀ q : MessageQueue, (irq q msgs).pull_pos = q.pull_pos := by
  induction msgs with
  | nil => intro q; rfl
  | cons m ms ih =>
    intro q
    show (irq (push_steps q m) ms).pull_pos = q.pull_pos
    rw [ih, push_steps_eq_push]
    unfold push; dsimp only; split <;> rfl

theorem represents_irq (msgs : List can2040_msg) :
    ∀ (q : MessageQueue) (l : List can2040_msg), Represents q l →
      l.length + msgs.length ≤ 128 → Represents (irq q msgs) (l ++ msgs) := by
  induction msgs with
  | nil => intro q l hr _; simpa [irq] using hr
  | cons m ms ih =>
    intro q l hr hlen
    simp only [List.length_cons] at hlen
    have h1 := represents_push m hr (by omega)
    have hl2 : (l ++ [m]).length + ms.length ≤ 128 := by
      simp only [List.length_append, List.length_singleton]
      omega
    have h2 := ih (push q m) (l ++ [m]) h1 hl2
    simpa [irq, push_steps_eq_push] using h2

theorem nonempty_iff_of_represents {q : MessageQueue} {l : List can2040_msg}
    (hr : Represents q l) : q.push_pos ≠ q.pull_pos ↔ l ≠ [] := by
  obtain ⟨h1, h2, h3, _⟩ := hr
  cases l with
  | nil => simp only [List.length_nil, Nat.add_zero] at h2; simp; omega
  | cons m l => simp only [List.length_cons] at h2 h3; simp; omega

/-- C15: hand-off ordering under preemption. Let the queue hold the pending
frames `l`, and let receive interrupts push `irq1`, `irq2`, `irq3` between the
four steps of the dequeue code, never with more than 128 frames held. The
producer writes the slot before it publishes `push_pos`: after the slot write
the pending frames are untouched, and the publish then appends the new frame.
The consumer copies the slot before it advances `pull_pos`: when it sees
`push_pos != pull_pos` the frame it copies is the oldest pending frame, whole,
and afterwards the queue holds the remaining frames followed by those the
interrupts pushed. -/
theorem handoff_under_preemption (q : MessageQueue) (l irq1 irq2 irq3 : List can2040_msg)
    (hr : Represents q l)
    (hcap : l.length + irq1.length + irq2.length + irq3.length ≤ 128) :
    (∀ msg, l.length < 128 →
      Represents (push_write_slot q q.push_pos msg) l ∧
      push_publish (push_write_slot q q.push_pos msg) q.push_pos = push_steps q msg ∧
      push_steps q msg = push q msg ∧
      Represents (push_steps q msg) (l ++ [msg])) ∧
    (q.push_pos ≠ q.pull_pos ↔ l ≠ []) ∧
    (pop_preempted q irq1 irq2 irq3).1 = l.head? ∧
    (∀ m rest, l = m :: rest →
      (pop_preempted q irq1 irq2 irq3).1 = some m ∧
      Represents (pop_preempted q irq1 irq2 irq3).2 (rest ++ irq1 ++ irq2 ++ irq3)) ∧
    (l = [] → (pop_preempted q irq1 irq2 irq3).1 = none ∧
      Represents (pop_preempted q irq1 irq2 irq3).2 (irq1 ++ irq2)) ∧
    pop_preempted q [] [] [] = pop q := by
  have hne := nonempty_iff_of_represents hr
  have hq1 := represents_irq irq1 q l hr (by omega)
  have hq2 := represents_irq irq2 (irq q irq1) (l ++ irq1) hq1
    (by simp only [List.length_append]; omega)
  have hq3 := represents_irq irq3 (irq (irq q irq1) irq2) (l ++ irq1 ++ irq2) hq2
    (by simp only [List.length_append]; omega)
  have hcons : ∀ m rest, l = m :: rest →
      (pop_preempted q irq1 irq2 irq3).1 = some m ∧
      Represents (pop_preempted q irq1 irq2 irq3).2 (rest ++ irq1 ++ irq2 ++ irq3) := by
    intro m rest hl
    subst hl
    have hn : q.push_pos ≠ q.pull_pos := hne.2 (by simp)
    have hn1 : q.push_pos ≠ (irq q irq1).pull_pos := by rw [irq_pull_pos]; exact hn
    have hp2 : (irq (irq q irq1) irq2).pull_pos = (irq q irq1).pull_pos := irq_pull_pos _ _
    have hslot := hq2.slots 0 (by simp)
    simp only [Nat.add_zero, hp2] at hslot
    have hpop := represents_pop_cons (q := irq (irq (irq q irq1) irq2) irq3) (m := m)
      (l := rest ++ irq1 ++ irq2 ++ irq3) (by simpa using hq3)
    have hn3 : (irq (irq (irq q irq1) irq2) irq3).push_pos ≠
        (irq (irq (irq q irq1) irq2) irq3).pull_pos :=
      (nonempty_iff_of_represents hq3).2 (by simp)
    have hst : (pop (irq (irq (irq q irq1) irq2) irq3)).2 =
        (pop_preempted q irq1 irq2 irq3).2 := by
      simp only [pop, pop_preempted, if_pos hn3, if_pos hn1]
    refine ⟨?_, ?_⟩
    · simp only [pop_preempted, if_pos hn1]
      rw [hslot]
      simp
    · rw [← hst]; exact hpop.2
  have hnil : l = [] → (pop_preempted q irq1 irq2 irq3).1 = none ∧
      Represents (pop_preempted q irq1 irq2 irq3).2 (irq1 ++ irq2) := by
    intro hl
    subst hl
    have he : ¬ q.push_pos ≠ (irq q irq1).pull_pos := by
      rw [irq_pull_pos]
      intro hn
      exact (hne.1 hn) rfl
    simp only [pop_preempted, if_neg he]
    exact ⟨trivial, by simpa using hq2⟩
  refine ⟨?_, hne, ?_, hcons, hnil, ?_⟩
  · intro msg hl
    have hacc : ¬ (q.push_pos + 1) % UINT32_MOD = q.pull_pos := by
      obtain ⟨h1, h2, h3, _⟩ := hr
      unfold UINT32_MOD
      omega
    have hpub : push_publish (push_write_slot q q.push_pos msg) q.push_pos =
        push_steps q msg := by
      simp only [push_steps, if_neg hacc]
    exact ⟨represents_write_slot msg hr hl, hpub, rfl, represents_push msg hr hl⟩
  · cases l with
    | nil => exact (hnil rfl).1
    | cons m rest => exact (hcons m rest rfl).1
  · simp only [pop_preempted, pop, irq, List.foldl_nil]

/-- Witness for C15: one frame pending, three more received while the consumer
dequeues; the consumer gets the pending frame. -/
theorem handoff_under_preemption_witness :
    Represents (push MessageQueue.init (frame 1)) [frame 1] ∧
    ([frame 1].length + [frame 2].length + [frame 3].length + [frame 4].length ≤ 128) ∧
    (pop_preempted (push MessageQueue.init (frame 1)) [frame 2] [frame 3] [frame 4]).1 =
      some (frame 1) :=
  ⟨represents_push (frame 1) represents_init (by decide), by decide,
    (handoff_under_preemption (push MessageQueue.init (frame 1)) [frame 1] [frame 2]
      [frame 3] [frame 4] (represents_push (frame 1) represents_init (by decide))
      (by decide)).2.2.1⟩

end Can2040
